import Mathlib

/-!
Verification development for the attribute resolution and propagation engine:
the attribute value store (`lib/dal/src/deculture/attribute/value.rs`), the
component-type enum (`lib/dal/src/schema/variant/root_prop/component_type.rs`)
and the frame composition algorithm
(`lib/sdf-server/src/server/service/diagram/connect_component_to_frame.rs`).

Machine integers of the source (the `pk!` id newtypes) are modelled as `Nat`;
the sentinel `NONE` id of the source is modelled as `0`.  Database-backed
lookups that the frame algorithm performs are modelled as an explicit
environment of pure functions (`DalEnv`), and the side effects the algorithm
commits (connections, edges, provider hookups, enqueued propagation jobs) are
collected in a `WiringEffects` record returned on success; an `Except` error
models the aborted (rolled-back) transaction, which commits nothing.
-/

namespace Si

/-- Identifier for a diagram node (`NodeId`). -/
abbrev NodeId := Nat

/-- Identifier for a component (`ComponentId`). -/
abbrev ComponentId := Nat

/-- Identifier for a socket (`SocketId`). -/
abbrev SocketId := Nat

/-- Identifier for an internal provider (`InternalProviderId`). -/
abbrev InternalProviderId := Nat

/-- Identifier for an external provider (`ExternalProviderId`). -/
abbrev ExternalProviderId := Nat

/-- Identifier for a prop (`PropId`). -/
abbrev PropId := Nat

/-- Identifier for a schema (`SchemaId`). -/
abbrev SchemaId := Nat

/-- Identifier for a schema variant (`SchemaVariantId`). -/
abbrev SchemaVariantId := Nat

/-- Identifier for an attribute value (`AttributeValueId`). -/
abbrev AttributeValueId := Nat

/-- Primary key for an attribute value row (`AttributeValuePk`). -/
abbrev AttributeValuePk := Nat

/-- Identifier for a func binding return value (`FuncBindingReturnValueId`). -/
abbrev FuncBindingReturnValueId := Nat

/-- Tenancy of a row, opaque to the claims; modelled as a single tag. -/
abbrev Tenancy := Nat

/-- Visibility of a row, opaque to the claims; modelled as a single tag. -/
abbrev Visibility := Nat

/-- Timestamp of a row, opaque to the claims; modelled as a single tag. -/
abbrev Timestamp := Nat

/-- Ordered sequence of child keys of an array/map value (`IndexMap`);
only carried around by the claims, so modelled as a list of keys. -/
abbrev IndexMap := List String

/-- The sentinel id standing for the source's `NONE` (unset) id. -/
def UNSET_ID : Nat := 0

/-- The source's `PropId::NONE` sentinel. -/
def PropId.NONE : PropId := UNSET_ID

/-- The source's `InternalProviderId::NONE` sentinel. -/
def InternalProviderId.NONE : InternalProviderId := UNSET_ID

/-- The possible values of "/root/si/type"
(`lib/dal/src/schema/variant/root_prop/component_type.rs`). -/
inductive ComponentType where
  | Component
  | ConfigurationFrame
  | AggregationFrame
deriving DecidableEq, Repr

/-- Return the label corresponding to the component type (source `label`). -/
def ComponentType.label : ComponentType → String
  | .Component => "Component"
  | .ConfigurationFrame => "Configuration Frame"
  | .AggregationFrame => "Aggregation Frame"

/-- Socket kind (`SocketKind`): either a provider-backed socket or the
special frame socket.  The frame algorithm only distinguishes `Frame`
from everything else. -/
inductive SocketKind where
  | Provider
  | Frame
deriving DecidableEq, Repr

/-- Socket edge kind (`SocketEdgeKind`).  The aggregation branch of
`connect_component_sockets_to_frame` matches exhaustively on exactly these
two constructors. -/
inductive SocketEdgeKind where
  | ConfigurationInput
  | ConfigurationOutput
deriving DecidableEq, Repr

/-- Edge kind (`EdgeKind`): causal data flow (`Configuration`) or purely
structural containment (`Symbolic`). -/
inductive EdgeKind where
  | Configuration
  | Symbolic
deriving DecidableEq, Repr

/-- Vertex object kind (`VertexObjectKind`) used by `Edge::new`; the frame
algorithm only ever uses `Configuration`. -/
inductive VertexObjectKind where
  | Configuration
deriving DecidableEq, Repr

/-- Object id carried on an edge endpoint (`EdgeObjectId`); the frame
algorithm always builds it from a `ComponentId`. -/
abbrev EdgeObjectId := Nat

/-- A socket, with the fields the frame algorithm reads: its id, its
`kind` and its `edge_kind`. -/
structure Socket where
  id : SocketId
  kind : SocketKind
  edge_kind : SocketEdgeKind
deriving DecidableEq, Repr

/-- An internal provider, with the fields the frame algorithm reads. -/
structure InternalProvider where
  id : InternalProviderId
  name : String
deriving DecidableEq, Repr

/-- An external provider, with the fields the frame algorithm reads. -/
structure ExternalProvider where
  id : ExternalProviderId
  name : String
deriving DecidableEq, Repr

/-- A user-visible connection as created by
`Connection::new(ctx, from_node, from_socket, to_node, to_socket, edge_kind)`. -/
structure Connection where
  from_node : NodeId
  from_socket : SocketId
  to_node : NodeId
  to_socket : SocketId
  edge_kind : EdgeKind
deriving DecidableEq, Repr

/-- A graph-level edge as created by `Edge::new`, with its positional
arguments: kind, then the tail endpoint (node, object kind, object id,
socket), then the head endpoint. -/
structure Edge where
  kind : EdgeKind
  tail_node_id : NodeId
  tail_object_kind : VertexObjectKind
  tail_object_id : EdgeObjectId
  tail_socket_id : SocketId
  head_node_id : NodeId
  head_object_kind : VertexObjectKind
  head_object_id : EdgeObjectId
  head_socket_id : SocketId
deriving DecidableEq, Repr

/-- The provider hookup recorded by
`Edge::connect_internal_providers_for_components(ctx, provider, source, destination)`. -/
structure InternalProviderConnection where
  internal_provider_id : InternalProviderId
  source_component_id : ComponentId
  destination_component_id : ComponentId
deriving DecidableEq, Repr

/-- The provider hookup recorded by
`Edge::connect_external_providers_for_components(ctx, provider, source, destination)`. -/
structure ExternalProviderConnection where
  external_provider_id : ExternalProviderId
  source_component_id : ComponentId
  destination_component_id : ComponentId
deriving DecidableEq, Repr

/-- The composite specificity key (`AttributeContext`): fields are concrete
identifiers or the `UNSET_ID` sentinel.  The struct itself is referenced by
`value.rs` but defined outside the excerpted sources, so the field set is
taken from the spec's data model. -/
structure AttributeContext where
  prop_id : PropId
  internal_provider_id : InternalProviderId
  external_provider_id : ExternalProviderId
  component_id : ComponentId
  schema_id : SchemaId
  schema_variant_id : SchemaVariantId
deriving DecidableEq, Repr

/-- A read context (`AttributeReadContext`) as used by the frame algorithm:
each field is either a required id (`some`, possibly the `NONE` sentinel) or
a wildcard (`none`, the source's `Default`).  Only the four fields that
`connect_component_to_frame.rs` sets are modelled. -/
structure AttributeReadContext where
  prop_id : Option PropId
  internal_provider_id : Option InternalProviderId
  external_provider_id : Option ExternalProviderId
  component_id : Option ComponentId
deriving DecidableEq, Repr

/-- The source's `AttributeReadContext::default()`: every field a wildcard. -/
def AttributeReadContext.default : AttributeReadContext :=
  ⟨none, none, none, none⟩

/-- An attribute value row (`AttributeValue` in
`lib/dal/src/deculture/attribute/value.rs`), with its persistent fields. -/
structure AttributeValue where
  pk : AttributeValuePk
  id : AttributeValueId
  func_binding_return_value_id : Option FuncBindingReturnValueId
  proxy_for_attribute_value_id : Option AttributeValueId
  sealed_proxy : Bool
  index_map : Option IndexMap
  key : Option String
  context : AttributeContext
  tenancy : Tenancy
  visibility : Visibility
  timestamp : Timestamp
deriving DecidableEq, Repr

/-- Errors of the attribute value store (`AttributeValueError`); only the
variant the modelled operations can produce is carried (the others wrap
external collaborator failures that the embedding does not model). -/
inductive AttributeValueError where
  | NotFound (id : AttributeValueId) (visibility : Visibility)
deriving DecidableEq, Repr

/-- The proxy synchronisation pass of `AttributeValue` (`update_proxies` in
`value.rs`): a value standing in for a less specific value refreshes its
`func_binding_return_value_id` from the proxied value, unless it has no
proxy target or has been sealed; a dangling proxy target is a `NotFound`
error.  The key-mismatch branch of the source is an empty block (comment
only), so it has no effect here either.  `get_by_id` models
`Self::get_by_id` against the store. -/
def AttributeValue.update_proxies
    (get_by_id : AttributeValueId → Option AttributeValue)
    (self : AttributeValue) : Except AttributeValueError AttributeValue :=
  match self.proxy_for_attribute_value_id with
  | none => Except.ok self
  | some proxied_attribute_value_id =>
    if self.sealed_proxy then Except.ok self
    else
      match get_by_id proxied_attribute_value_id with
      | none =>
        Except.error (AttributeValueError.NotFound proxied_attribute_value_id self.visibility)
      | some proxied_attribute_value =>
        Except.ok
          { self with
            func_binding_return_value_id :=
              proxied_attribute_value.func_binding_return_value_id }

/-- The builder's validation error (`AttributeContextBuilderError`,
referenced from `value.rs` but defined outside the excerpted sources).
Modelled from the spec: building fails with a validation error when more
than one discriminator field is concrete. -/
inductive AttributeContextBuilderError where
  | MultipleDiscriminatorsSet (prop_id : PropId)
      (internal_provider_id : InternalProviderId)
      (external_provider_id : ExternalProviderId)
deriving DecidableEq, Repr

/-- Builder for an `AttributeContext` (`AttributeContext::builder()` in the
source); every field starts at the unset sentinel. -/
structure AttributeContextBuilder where
  prop_id : PropId
  internal_provider_id : InternalProviderId
  external_provider_id : ExternalProviderId
  component_id : ComponentId
  schema_id : SchemaId
  schema_variant_id : SchemaVariantId
deriving DecidableEq, Repr

/-- The fresh builder returned by `AttributeContext::builder()`. -/
def AttributeContext.builder : AttributeContextBuilder :=
  ⟨UNSET_ID, UNSET_ID, UNSET_ID, UNSET_ID, UNSET_ID, UNSET_ID⟩

/-- Builder setter `set_prop_id`. -/
def AttributeContextBuilder.set_prop_id
    (b : AttributeContextBuilder) (prop_id : PropId) : AttributeContextBuilder :=
  { b with prop_id := prop_id }

/-- Builder setter `set_internal_provider_id`. -/
def AttributeContextBuilder.set_internal_provider_id
    (b : AttributeContextBuilder) (internal_provider_id : InternalProviderId) :
    AttributeContextBuilder :=
  { b with internal_provider_id := internal_provider_id }

/-- Builder setter `set_external_provider_id`. -/
def AttributeContextBuilder.set_external_provider_id
    (b : AttributeContextBuilder) (external_provider_id : ExternalProviderId) :
    AttributeContextBuilder :=
  { b with external_provider_id := external_provider_id }

/-- Builder setter `set_component_id`. -/
def AttributeContextBuilder.set_component_id
    (b : AttributeContextBuilder) (component_id : ComponentId) :
    AttributeContextBuilder :=
  { b with component_id := component_id }

/-- Builder setter `set_schema_id`. -/
def AttributeContextBuilder.set_schema_id
    (b : AttributeContextBuilder) (schema_id : SchemaId) : AttributeContextBuilder :=
  { b with schema_id := schema_id }

/-- Builder setter `set_schema_variant_id`. -/
def AttributeContextBuilder.set_schema_variant_id
    (b : AttributeContextBuilder) (schema_variant_id : SchemaVariantId) :
    AttributeContextBuilder :=
  { b with schema_variant_id := schema_variant_id }

/-- How many of the three discriminator fields of the builder are concrete. -/
def AttributeContextBuilder.setDiscriminatorCount (b : AttributeContextBuilder) : Nat :=
  (if b.prop_id ≠ UNSET_ID then 1 else 0) +
    (if b.internal_provider_id ≠ UNSET_ID then 1 else 0) +
    (if b.external_provider_id ≠ UNSET_ID then 1 else 0)

/-- Modelled from the spec: `to_context` (the spec's `build`) validates that
zero or exactly one discriminator field is set, failing with a validation
error otherwise, and produces the context from the builder's fields.  The
implementation of `AttributeContextBuilder` is outside the excerpted
sources. -/
def AttributeContextBuilder.to_context (b : AttributeContextBuilder) :
    Except AttributeContextBuilderError AttributeContext :=
  if 2 ≤ b.setDiscriminatorCount then
    Except.error
      (AttributeContextBuilderError.MultipleDiscriminatorsSet b.prop_id
        b.internal_provider_id b.external_provider_id)
  else
    Except.ok
      ⟨b.prop_id, b.internal_provider_id, b.external_provider_id, b.component_id,
        b.schema_id, b.schema_variant_id⟩

/-- The persisted table of attribute value rows.  `AttributeValue::new`
prepends the freshly created row. -/
structure ValueStore where
  rows : List AttributeValue
deriving DecidableEq, Repr

/-- Largest id currently present in the store. -/
def ValueStore.maxId (s : ValueStore) : Nat :=
  s.rows.foldl (fun m v => max m v.id) 0

/-- A fresh id, strictly larger than every id in the store (models the
database sequence backing `attribute_value_create_v1`). -/
def ValueStore.freshId (s : ValueStore) : AttributeValueId :=
  s.maxId + 1

/-- Row lookup by id (`StandardModel::get_by_id`). -/
def ValueStore.get_by_id (s : ValueStore) (id : AttributeValueId) :
    Option AttributeValue :=
  s.rows.find? (fun v => v.id == id)

/-- Creation of an attribute value (`AttributeValue::new` in `value.rs`):
inserts one fresh row carrying the given return value reference, context and
key.  The row insertion itself is performed by the stored procedure
`attribute_value_create_v1` (outside the excerpted sources) and is modelled
from the spec as allocating a new value row; the source's call to
`update_parent_index_map` is commented out, so no existing row is touched. -/
def AttributeValue.new (s : ValueStore) (tenancy : Tenancy) (visibility : Visibility)
    (func_binding_return_value_id : Option FuncBindingReturnValueId)
    (context : AttributeContext) (key : Option String) :
    AttributeValue × ValueStore :=
  let object : AttributeValue :=
    { pk := s.freshId
      id := s.freshId
      func_binding_return_value_id := func_binding_return_value_id
      proxy_for_attribute_value_id := none
      sealed_proxy := false
      index_map := none
      key := key
      context := context
      tenancy := tenancy
      visibility := visibility
      timestamp := 0 }
  (object, ⟨object :: s.rows⟩)

/-- Specificity level of a context, most specific first: component-level is 3,
schema-variant-level 2, schema-level 1, global 0 (spec section on the
context model). -/
def specificityLevel (c : AttributeContext) : Nat :=
  if c.component_id ≠ UNSET_ID then 3
  else if c.schema_variant_id ≠ UNSET_ID then 2
  else if c.schema_id ≠ UNSET_ID then 1
  else 0

/-- Modelled from the spec: a stored value's context matches a queried
context when the discriminator fields agree exactly and each scope field is
either equal to the queried one or unset (the value lives at or below the
requested specificity).  A value more specific than the query (for example a
component-level value probed by a schema-variant-level query) does not
match. -/
def contextMatchesAtOrBelow (vctx qctx : AttributeContext) : Bool :=
  vctx.prop_id == qctx.prop_id &&
    vctx.internal_provider_id == qctx.internal_provider_id &&
    vctx.external_provider_id == qctx.external_provider_id &&
    (vctx.component_id == qctx.component_id || vctx.component_id == UNSET_ID) &&
    (vctx.schema_variant_id == qctx.schema_variant_id ||
      vctx.schema_variant_id == UNSET_ID) &&
    (vctx.schema_id == qctx.schema_id || vctx.schema_id == UNSET_ID)

/-- One step of the most-specific-match scan: keep the better of the current
best candidate and the next row (rows nearer the head win ties). -/
def findStep (q : AttributeContext) (best : Option AttributeValue)
    (v : AttributeValue) : Option AttributeValue :=
  if contextMatchesAtOrBelow v.context q then
    match best with
    | none => some v
    | some b =>
      if specificityLevel b.context < specificityLevel v.context then some v
      else some b
  else best

/-- Modelled from the spec: `AttributeValue::find_for_context` returns the
single most specific value matching the context, or nothing when no value
exists at or below the requested specificity (the implementation lives in a
generated query outside the excerpted sources).  Among equally specific
matches the most recently created row (nearest the head) wins. -/
def ValueStore.find_for_context (s : ValueStore) (q : AttributeContext) :
    Option AttributeValue :=
  s.rows.foldl (findStep q) none

/-- Edge-layer errors surfaced by the frame algorithm (`EdgeError` variants
used in `connect_component_to_frame.rs`). -/
inductive EdgeError where
  | InternalProviderNotFoundForSocket (socket_id : SocketId)
  | ExternalProviderNotFoundForSocket (socket_id : SocketId)
deriving DecidableEq, Repr

/-- Diagram service errors raised by the frame algorithm (`DiagramError`
variants used in `connect_component_to_frame.rs`; `Edge` wraps an
`EdgeError` via its `From` conversion). -/
inductive DiagramError where
  | NodeNotFound (node_id : NodeId)
  | InvalidComponentTypeForFrame (component_type : ComponentType)
  | AttributeValueNotFoundForContext (context : AttributeReadContext)
  | Edge (e : EdgeError)
deriving DecidableEq, Repr

/-- The database-backed lookups `connect_component_sockets_to_frame`
performs, modelled as an environment of pure functions: component
resolution for a node (`Component::find_for_node`), component type
(`Component::get_type`), socket listing (`Socket::list_for_component`),
provider resolution for a socket
(`InternalProvider::find_explicit_for_socket`,
`ExternalProvider::find_for_socket`, `Socket::external_provider`,
`Socket::internal_provider`) and attribute value lookup
(`AttributeValue::find_for_context` over a read context). -/
structure DalEnv where
  component_for_node : NodeId → Option ComponentId
  component_type : ComponentId → ComponentType
  sockets_for_component : ComponentId → List Socket
  internal_provider_explicit_for_socket : SocketId → Option InternalProvider
  external_provider_for_socket : SocketId → Option ExternalProvider
  socket_external_provider : SocketId → Option ExternalProvider
  socket_internal_provider : SocketId → Option InternalProvider
  attribute_value_for_context : AttributeReadContext → Option AttributeValue

/-- The side effects `connect_component_sockets_to_frame` commits on
success: created connections, created edges, provider hookups in both
directions, and the enqueued `DependentValuesUpdate` jobs (each a list of
root attribute value ids). -/
structure WiringEffects where
  connections : List Connection
  edges : List Edge
  internal_provider_connections : List InternalProviderConnection
  external_provider_connections : List ExternalProviderConnection
  enqueued_jobs : List (List AttributeValueId)
deriving DecidableEq, Repr

/-- No effects. -/
def WiringEffects.empty : WiringEffects := ⟨[], [], [], [], []⟩

/-- Effects of two successive phases, in order. -/
def WiringEffects.append (a b : WiringEffects) : WiringEffects :=
  ⟨a.connections ++ b.connections, a.edges ++ b.edges,
    a.internal_provider_connections ++ b.internal_provider_connections,
    a.external_provider_connections ++ b.external_provider_connections,
    a.enqueued_jobs ++ b.enqueued_jobs⟩

/-- The read context built in the `ConfigurationFrame` branch: prop and
internal provider pinned to the `NONE` sentinel, external provider pinned to
the parent provider, component pinned to the parent component. -/
def configFrameReadContext (parent_component_id : ComponentId)
    (parent_provider : ExternalProvider) : AttributeReadContext :=
  ⟨some PropId.NONE, some InternalProviderId.NONE, some parent_provider.id,
    some parent_component_id⟩

/-- The read context built in the aggregation `ConfigurationInput` branch:
component pinned to the parent component, internal provider pinned to the
socket's provider, everything else defaulted to wildcards. -/
def aggregationInputReadContext (parent_component_id : ComponentId)
    (provider : InternalProvider) : AttributeReadContext :=
  { AttributeReadContext.default with
    component_id := some parent_component_id
    internal_provider_id := some provider.id }

/-- The read context built in the aggregation `ConfigurationOutput` branch:
component pinned to the child component, external provider pinned to the
socket's provider, everything else defaulted to wildcards. -/
def aggregationOutputReadContext (child_component_id : ComponentId)
    (provider : ExternalProvider) : AttributeReadContext :=
  { AttributeReadContext.default with
    component_id := some child_component_id
    external_provider_id := some provider.id }

/-- The `Edge::new` call of the aggregation `ConfigurationInput` branch:
a `Configuration` edge whose tail is the child node/component and whose head
is the parent node/component, both endpoints on the parent socket. -/
def aggregationInputEdge (parent_node_id child_node_id : NodeId)
    (parent_component_id child_component_id : ComponentId)
    (parent_socket : Socket) : Edge :=
  ⟨EdgeKind.Configuration, child_node_id, VertexObjectKind.Configuration,
    child_component_id, parent_socket.id, parent_node_id,
    VertexObjectKind.Configuration, parent_component_id, parent_socket.id⟩

/-- The `Edge::new` call of the aggregation `ConfigurationOutput` branch:
a `Configuration` edge whose tail is the parent node/component and whose head
is the child node/component, both endpoints on the parent socket. -/
def aggregationOutputEdge (parent_node_id child_node_id : NodeId)
    (parent_component_id child_component_id : ComponentId)
    (parent_socket : Socket) : Edge :=
  ⟨EdgeKind.Configuration, parent_node_id, VertexObjectKind.Configuration,
    parent_component_id, parent_socket.id, child_node_id,
    VertexObjectKind.Configuration, child_component_id, parent_socket.id⟩

/-- Run a per-item wiring phase over a list, stopping at the first error and
concatenating the committed effects in order otherwise (models the source's
loops of fallible operations inside one transaction). -/
def runAll (f : α → Except DiagramError WiringEffects) :
    List α → Except DiagramError WiringEffects
  | [] => Except.ok WiringEffects.empty
  | x :: xs =>
    match f x with
    | Except.error e => Except.error e
    | Except.ok eff =>
      match runAll f xs with
      | Except.error e => Except.error e
      | Except.ok effs => Except.ok (eff.append effs)

/-- Body of the inner loop of the `ConfigurationFrame` branch, for one child
socket: skip frame sockets, skip sockets with no internal provider, skip
name mismatches; on a name match create one `Configuration` connection from
the parent socket to the child socket, look up the parent's
externally-provided attribute value (failing closed when it is missing) and
enqueue it as the propagation root. -/
def processChildSocketConfig (env : DalEnv)
    (parent_node_id child_node_id : NodeId) (parent_component_id : ComponentId)
    (parent_socket : Socket) (parent_provider : ExternalProvider)
    (child_socket : Socket) : Except DiagramError WiringEffects :=
  if child_socket.kind = SocketKind.Frame then Except.ok WiringEffects.empty
  else
    match env.socket_internal_provider child_socket.id with
    | none => Except.ok WiringEffects.empty
    | some child_provider =>
      if parent_provider.name = child_provider.name then
        let connection : Connection :=
          ⟨parent_node_id, parent_socket.id, child_node_id, child_socket.id,
            EdgeKind.Configuration⟩
        let attribute_read_context :=
          configFrameReadContext parent_component_id parent_provider
        match env.attribute_value_for_context attribute_read_context with
        | none =>
          Except.error
            (DiagramError.AttributeValueNotFoundForContext attribute_read_context)
        | some attribute_value =>
          Except.ok ⟨[connection], [], [], [], [[attribute_value.id]]⟩
      else Except.ok WiringEffects.empty

/-- Body of the outer loop of `connect_component_sockets_to_frame`, for one
parent socket.  Frame-kind parent sockets are skipped.  In aggregation mode
a `ConfigurationInput` socket resolves its explicit internal provider
(failing when absent), hooks the provider up from the child component to the
parent component, creates a `Configuration` edge from child to parent and
enqueues the parent-side value; a `ConfigurationOutput` socket resolves its
external provider (failing when absent), hooks it up from the parent
component to the child component, creates a `Configuration` edge from parent
to child and enqueues the child-side value.  In configuration-frame mode the
parent socket's external provider (when present) is matched by name against
every child socket's internal provider. -/
def processParentSocket (env : DalEnv)
    (parent_node_id child_node_id : NodeId)
    (parent_component_id child_component_id : ComponentId)
    (aggregation_frame : Bool) (child_sockets : List Socket)
    (parent_socket : Socket) : Except DiagramError WiringEffects :=
  if parent_socket.kind = SocketKind.Frame then Except.ok WiringEffects.empty
  else if aggregation_frame then
    match parent_socket.edge_kind with
    | SocketEdgeKind.ConfigurationInput =>
      match env.internal_provider_explicit_for_socket parent_socket.id with
      | none =>
        Except.error
          (DiagramError.Edge (EdgeError.InternalProviderNotFoundForSocket parent_socket.id))
      | some provider =>
        let attribute_value_context :=
          aggregationInputReadContext parent_component_id provider
        match env.attribute_value_for_context attribute_value_context with
        | none =>
          Except.error
            (DiagramError.AttributeValueNotFoundForContext attribute_value_context)
        | some attribute_value =>
          Except.ok
            ⟨[],
              [aggregationInputEdge parent_node_id child_node_id
                parent_component_id child_component_id parent_socket],
              [⟨provider.id, child_component_id, parent_component_id⟩], [],
              [[attribute_value.id]]⟩
    | SocketEdgeKind.ConfigurationOutput =>
      match env.external_provider_for_socket parent_socket.id with
      | none =>
        Except.error
          (DiagramError.Edge (EdgeError.ExternalProviderNotFoundForSocket parent_socket.id))
      | some provider =>
        let attribute_value_context :=
          aggregationOutputReadContext child_component_id provider
        match env.attribute_value_for_context attribute_value_context with
        | none =>
          Except.error
            (DiagramError.AttributeValueNotFoundForContext attribute_value_context)
        | some attribute_value =>
          Except.ok
            ⟨[],
              [aggregationOutputEdge parent_node_id child_node_id
                parent_component_id child_component_id parent_socket],
              [], [⟨provider.id, parent_component_id, child_component_id⟩],
              [[attribute_value.id]]⟩
  else
    match env.socket_external_provider parent_socket.id with
    | none => Except.ok WiringEffects.empty
    | some parent_provider =>
      runAll
        (processChildSocketConfig env parent_node_id child_node_id
          parent_component_id parent_socket parent_provider)
        child_sockets

/-- The frame composition walk (`connect_component_sockets_to_frame` in
`connect_component_to_frame.rs`): resolve both nodes to components (failing
with `NodeNotFound`), list both components' sockets, read the parent's type
(only the two frame types are allowed; anything else is
`InvalidComponentTypeForFrame`), then process every parent socket.  On an
error the ambient transaction rolls back, so no effects are committed. -/
def connect_component_sockets_to_frame (env : DalEnv)
    (parent_node_id child_node_id : NodeId) :
    Except DiagramError WiringEffects :=
  match env.component_for_node parent_node_id with
  | none => Except.error (DiagramError.NodeNotFound parent_node_id)
  | some parent_component_id =>
    match env.component_for_node child_node_id with
    | none => Except.error (DiagramError.NodeNotFound child_node_id)
    | some child_component_id =>
      let parent_sockets := env.sockets_for_component parent_component_id
      let child_sockets := env.sockets_for_component child_component_id
      match env.component_type parent_component_id with
      | ComponentType.AggregationFrame =>
        runAll
          (processParentSocket env parent_node_id child_node_id
            parent_component_id child_component_id true child_sockets)
          parent_sockets
      | ComponentType.ConfigurationFrame =>
        runAll
          (processParentSocket env parent_node_id child_node_id
            parent_component_id child_component_id false child_sockets)
          parent_sockets
      | component_type =>
        Except.error (DiagramError.InvalidComponentTypeForFrame component_type)

/-- Project one effect list out of a phase result: the projection of a
successful phase, nothing for a failed phase (used to state what a whole
wiring walk committed, phase by phase). -/
def okProj (π : WiringEffects → List β)
    (r : Except DiagramError WiringEffects) : List β :=
  match r with
  | Except.ok e => π e
  | Except.error _ => []

/-! ### Concrete instances used by the witness theorems -/

/-- A concrete unsealed proxy value (witness data). -/
def proxyValueW : AttributeValue :=
  { pk := 1, id := 2, func_binding_return_value_id := some 9,
    proxy_for_attribute_value_id := some 1, sealed_proxy := false,
    index_map := none, key := none, context := ⟨0, 0, 0, 0, 0, 0⟩,
    tenancy := 0, visibility := 0, timestamp := 0 }

/-- A concrete sealed proxy value (witness data). -/
def sealedValueW : AttributeValue :=
  { proxyValueW with id := 3, sealed_proxy := true }

/-- A concrete proxied (less specific) value (witness data). -/
def proxiedValueW : AttributeValue :=
  { pk := 4, id := 1, func_binding_return_value_id := some 42,
    proxy_for_attribute_value_id := none, sealed_proxy := false,
    index_map := none, key := none, context := ⟨0, 0, 0, 0, 0, 0⟩,
    tenancy := 0, visibility := 0, timestamp := 0 }

/-- A concrete one-row id-indexed store (witness data). -/
def storeW : AttributeValueId → Option AttributeValue :=
  fun i => if i = 1 then some proxiedValueW else none

/-- A concrete component-level value row (witness data). -/
def componentRowW : AttributeValue :=
  { pk := 7, id := 7, func_binding_return_value_id := some 3,
    proxy_for_attribute_value_id := none, sealed_proxy := false,
    index_map := some ["k1"], key := none, context := ⟨5, 0, 0, 77, 1, 2⟩,
    tenancy := 0, visibility := 0, timestamp := 0 }

/-- A concrete value store holding one component-level row (witness data). -/
def valueStoreW : ValueStore := ⟨[componentRowW]⟩

/-- A concrete environment whose parent component is a plain `Component`
(witness data): node 1 maps to component 10, node 2 to component 20. -/
def envComponentW : DalEnv :=
  { component_for_node := fun n =>
      if n = 1 then some 10 else if n = 2 then some 20 else none
    component_type := fun _ => ComponentType.Component
    sockets_for_component := fun _ => []
    internal_provider_explicit_for_socket := fun _ => none
    external_provider_for_socket := fun _ => none
    socket_external_provider := fun _ => none
    socket_internal_provider := fun _ => none
    attribute_value_for_context := fun _ => none }

/-- A concrete aggregation input socket (witness data). -/
def sInW : Socket := ⟨100, SocketKind.Provider, SocketEdgeKind.ConfigurationInput⟩

/-- A concrete aggregation output socket (witness data). -/
def sOutW : Socket := ⟨101, SocketKind.Provider, SocketEdgeKind.ConfigurationOutput⟩

/-- A concrete explicit internal provider (witness data). -/
def internalProvW : InternalProvider := ⟨7, "X"⟩

/-- A concrete external provider (witness data). -/
def externalProvW : ExternalProvider := ⟨8, "X"⟩

/-- The parent-side aggregation value enqueued on input wiring (witness data). -/
def avInW : AttributeValue :=
  { pk := 55, id := 55, func_binding_return_value_id := some 5,
    proxy_for_attribute_value_id := none, sealed_proxy := false,
    index_map := none, key := none, context := ⟨0, 0, 0, 0, 0, 0⟩,
    tenancy := 0, visibility := 0, timestamp := 0 }

/-- The child-side value enqueued on output wiring (witness data). -/
def avOutW : AttributeValue := { avInW with pk := 66, id := 66 }

/-- A concrete aggregation-frame environment (witness data): node 1 is the
parent (component 10, `AggregationFrame`, one input and one output socket),
node 2 the child (component 20). -/
def envAggW : DalEnv :=
  { component_for_node := fun n =>
      if n = 1 then some 10 else if n = 2 then some 20 else none
    component_type := fun c =>
      if c = 10 then ComponentType.AggregationFrame else ComponentType.Component
    sockets_for_component := fun c => if c = 10 then [sInW, sOutW] else []
    internal_provider_explicit_for_socket := fun sid =>
      if sid = 100 then some internalProvW else none
    external_provider_for_socket := fun sid =>
      if sid = 101 then some externalProvW else none
    socket_external_provider := fun _ => none
    socket_internal_provider := fun _ => none
    attribute_value_for_context := fun c =>
      if c = aggregationInputReadContext 10 internalProvW then some avInW
      else if c = aggregationOutputReadContext 20 externalProvW then some avOutW
      else none }

/-- The effects committed by wiring node 2 into node 1 of `envAggW`
(witness data). -/
def effAggW : WiringEffects :=
  ⟨[], [aggregationInputEdge 1 2 10 20 sInW, aggregationOutputEdge 1 2 10 20 sOutW],
    [⟨7, 20, 10⟩], [⟨8, 10, 20⟩], [[55], [66]]⟩

/-- Parent output socket carrying the `Region` provider (witness data). -/
def regionOutSocketW : Socket :=
  ⟨100, SocketKind.Provider, SocketEdgeKind.ConfigurationOutput⟩

/-- Parent output socket carrying the unmatched `Foo` provider (witness data). -/
def fooOutSocketW : Socket :=
  ⟨102, SocketKind.Provider, SocketEdgeKind.ConfigurationOutput⟩

/-- Parent frame-kind socket (witness data). -/
def parentFrameSocketW : Socket :=
  ⟨103, SocketKind.Frame, SocketEdgeKind.ConfigurationInput⟩

/-- Child input socket carrying the `Region` provider (witness data). -/
def regionInSocketW : Socket :=
  ⟨200, SocketKind.Provider, SocketEdgeKind.ConfigurationInput⟩

/-- Child frame-kind socket (witness data). -/
def childFrameSocketW : Socket :=
  ⟨201, SocketKind.Frame, SocketEdgeKind.ConfigurationOutput⟩

/-- The parent's `Region` external provider (witness data). -/
def regionExtProvW : ExternalProvider := ⟨7, "Region"⟩

/-- The child's `Region` internal provider (witness data). -/
def regionIntProvW : InternalProvider := ⟨8, "Region"⟩

/-- The parent's unmatched `Foo` external provider (witness data). -/
def fooExtProvW : ExternalProvider := ⟨9, "Foo"⟩

/-- The parent-side externally-provided value (witness data). -/
def avConfigW : AttributeValue := { avInW with pk := 57, id := 57 }

/-- A concrete configuration-frame environment (witness data): node 1 is the
parent (component 10, `ConfigurationFrame`, output providers `Region` and
`Foo` plus a frame socket), node 2 the child (component 20, input provider
`Region` plus a frame socket). -/
def envConfigW : DalEnv :=
  { component_for_node := fun n =>
      if n = 1 then some 10 else if n = 2 then some 20 else none
    component_type := fun c =>
      if c = 10 then ComponentType.ConfigurationFrame else ComponentType.Component
    sockets_for_component := fun c =>
      if c = 10 then [regionOutSocketW, fooOutSocketW, parentFrameSocketW]
      else if c = 20 then [regionInSocketW, childFrameSocketW]
      else []
    internal_provider_explicit_for_socket := fun _ => none
    external_provider_for_socket := fun _ => none
    socket_external_provider := fun sid =>
      if sid = 100 then some regionExtProvW
      else if sid = 102 then some fooExtProvW
      else none
    socket_internal_provider := fun sid =>
      if sid = 200 then some regionIntProvW else none
    attribute_value_for_context := fun c =>
      if c = configFrameReadContext 10 regionExtProvW then some avConfigW
      else none }

/-- The effects committed by wiring node 2 into node 1 of `envConfigW`
(witness data). -/
def effConfigW : WiringEffects :=
  ⟨[⟨1, 100, 2, 200, EdgeKind.Configuration⟩], [], [], [], [[57]]⟩

/-- An environment whose parent sockets are all frame-kind (witness data). -/
def envAllFramesW : DalEnv :=
  { envConfigW with
    sockets_for_component := fun c =>
      if c = 10 then [parentFrameSocketW] else [] }

/-- The child's `X` internal provider used by the missing-value environment
(witness data). -/
def childXIntProvW : InternalProvider := ⟨8, "X"⟩

/-- A child socket matching by name in the missing-value environment
(witness data). -/
def xChildSocketW : Socket :=
  ⟨200, SocketKind.Provider, SocketEdgeKind.ConfigurationInput⟩

/-- An external provider named `X` for the missing-value environment
(witness data). -/
def xExtProvW : ExternalProvider := ⟨9, "X"⟩

/-- An aggregation-frame environment in which every attribute value lookup
misses (witness data). -/
def envMissingW : DalEnv :=
  { component_for_node := fun n =>
      if n = 1 then some 10 else if n = 2 then some 20 else none
    component_type := fun c =>
      if c = 10 then ComponentType.AggregationFrame else ComponentType.Component
    sockets_for_component := fun c => if c = 10 then [sInW] else []
    internal_provider_explicit_for_socket := fun sid =>
      if sid = 100 then some internalProvW else none
    external_provider_for_socket := fun sid =>
      if sid = 101 then some externalProvW else none
    socket_external_provider := fun _ => none
    socket_internal_provider := fun sid =>
      if sid = 200 then some childXIntProvW else none
    attribute_value_for_context := fun _ => none }

/-! ### Helper lemmas -/

theorem foldl_max_id_acc_le (l : List AttributeValue) :
    ∀ a : Nat, a ≤ l.foldl (fun m v => max m v.id) a := by
  induction l with
  | nil => intro a; exact Nat.le_refl a
  | cons w t ih =>
    intro a
    exact Nat.le_trans (Nat.le_max_left a w.id) (ih (max a w.id))

theorem mem_rows_id_le_foldl_max (l : List AttributeValue) (w : AttributeValue) :
    w ∈ l → ∀ a : Nat, w.id ≤ l.foldl (fun m v => max m v.id) a := by
  induction l with
  | nil => intro h; cases h
  | cons x t ih =>
    intro h a
    rw [List.foldl_cons]
    rcases List.mem_cons.mp h with h1 | h1
    · subst h1
      exact Nat.le_trans (Nat.le_max_right a w.id) (foldl_max_id_acc_le t (max a w.id))
    · exact ih h1 (max a x.id)

theorem mem_rows_id_lt_freshId {s : ValueStore} {w : AttributeValue}
    (h : w ∈ s.rows) : w.id < s.freshId :=
  Nat.lt_succ_of_le (mem_rows_id_le_foldl_max s.rows w h 0)

theorem contextMatchesAtOrBelow_self (q : AttributeContext) :
    contextMatchesAtOrBelow q q = true := by
  simp [contextMatchesAtOrBelow]

theorem specificityLevel_le_of_matches {v q : AttributeContext}
    (h : contextMatchesAtOrBelow v q = true) :
    specificityLevel v ≤ specificityLevel q := by
  unfold contextMatchesAtOrBelow at h
  simp only [Bool.and_eq_true, Bool.or_eq_true, beq_iff_eq] at h
  obtain ⟨⟨⟨⟨⟨_, _⟩, _⟩, hcomp⟩, hvar⟩, hsch⟩ := h
  unfold specificityLevel
  rcases hcomp with hcomp | hcomp <;> rcases hvar with hvar | hvar <;>
    rcases hsch with hsch | hsch <;>
      split_ifs <;> simp_all [UNSET_ID]

theorem foldl_findStep_keeps_best (q : AttributeContext) (b : AttributeValue) :
    ∀ l : List AttributeValue,
      (∀ v ∈ l, contextMatchesAtOrBelow v.context q = true →
        specificityLevel v.context ≤ specificityLevel b.context) →
      l.foldl (findStep q) (some b) = some b := by
  intro l
  induction l with
  | nil => intro _; rfl
  | cons x t ih =>
    intro h
    rw [List.foldl_cons]
    have hstep : findStep q (some b) x = some b := by
      unfold findStep
      by_cases hm : contextMatchesAtOrBelow x.context q = true
      · have hle := h x (List.mem_cons_self x t) hm
        simp [hm]
        omega
      · simp at hm
        simp [hm]
    rw [hstep]
    exact ih (fun v hv => h v (List.mem_cons_of_mem x hv))

theorem foldl_findStep_none (q : AttributeContext) :
    ∀ l : List AttributeValue,
      (∀ v ∈ l, contextMatchesAtOrBelow v.context q = false) →
      l.foldl (findStep q) none = none := by
  intro l
  induction l with
  | nil => intro _; rfl
  | cons x t ih =>
    intro h
    rw [List.foldl_cons]
    have hstep : findStep q none x = none := by
      unfold findStep
      simp [h x (List.mem_cons_self x t)]
    rw [hstep]
    exact ih (fun v hv => h v (List.mem_cons_of_mem x hv))

theorem runAll_ok_of_mem {f : α → Except DiagramError WiringEffects}
    {l : List α} {eff : WiringEffects} (h : runAll f l = Except.ok eff)
    {x : α} (hx : x ∈ l) : ∃ e, f x = Except.ok e := by
  induction l generalizing eff with
  | nil => cases hx
  | cons y t ih =>
    unfold runAll at h
    cases hfy : f y with
    | error e => rw [hfy] at h; cases h
    | ok e =>
      rw [hfy] at h
      cases hrec : runAll f t with
      | error e2 => rw [hrec] at h; cases h
      | ok effs =>
        rcases List.mem_cons.mp hx with h1 | h1
        · exact ⟨e, h1 ▸ hfy⟩
        · exact ih hrec h1

theorem runAll_proj (π : WiringEffects → List β)
    (hadd : ∀ a b, π (a.append b) = π a ++ π b)
    (h0 : π WiringEffects.empty = [])
    {f : α → Except DiagramError WiringEffects} :
    ∀ {l : List α} {eff : WiringEffects}, runAll f l = Except.ok eff →
      π eff = (l.map (fun x => okProj π (f x))).flatten := by
  intro l
  induction l with
  | nil =>
    intro eff h
    unfold runAll at h
    cases h
    simpa using h0
  | cons y t ih =>
    intro eff h
    unfold runAll at h
    cases hfy : f y with
    | error e => rw [hfy] at h; cases h
    | ok e =>
      rw [hfy] at h
      cases hrec : runAll f t with
      | error e2 => rw [hrec] at h; cases h
      | ok effs =>
        rw [hrec] at h
        cases h
        rw [List.map_cons, List.flatten_cons, hadd, ih hrec]
        simp [okProj, hfy]

theorem sum_map_eq_zero (g : α → Nat) {l : List α}
    (h : ∀ x ∈ l, g x = 0) : (l.map g).sum = 0 :=
  List.sum_eq_zero (fun n hn => by
    rcases List.mem_map.mp hn with ⟨x, hx, hgx⟩
    rw [← hgx]
    exact h x hx)

theorem sum_map_eq_single_of_nodup_key (key : α → Nat) (g : α → Nat) :
    ∀ (l : List α) (x : α), x ∈ l → ((l.map key).Nodup) →
      (∀ y ∈ l, key y ≠ key x → g y = 0) → (l.map g).sum = g x := by
  intro l
  induction l with
  | nil => intro x hx; cases hx
  | cons a t ih =>
    intro x hx hnd hz
    rw [List.map_cons, List.nodup_cons] at hnd
    rw [List.map_cons, List.sum_cons]
    rcases List.mem_cons.mp hx with h1 | h1
    · subst h1
      have ht0 : (t.map g).sum = 0 := by
        apply sum_map_eq_zero
        intro y hy
        apply hz y (List.mem_cons_of_mem x hy)
        intro hkey
        exact hnd.1 (hkey ▸ List.mem_map_of_mem key hy)
      rw [ht0, Nat.add_zero]
    · have ha0 : g a = 0 := by
        apply hz a (List.mem_cons_self a t)
        intro hkey
        exact hnd.1 (hkey ▸ List.mem_map_of_mem key h1)
      rw [ha0, Nat.zero_add]
      exact ih x h1 hnd.2 (fun y hy => hz y (List.mem_cons_of_mem a hy))

theorem sum_map_indicator_eq_countP (p : α → Bool) :
    ∀ l : List α, (l.map (fun x => if p x then 1 else 0)).sum = l.countP p := by
  intro l
  induction l with
  | nil => rfl
  | cons a t ih =>
    rw [List.map_cons, List.sum_cons, List.countP_cons, ih]
    by_cases h : p a = true <;> simp [h, Nat.add_comm]

theorem runAll_mem_proj (π : WiringEffects → List β)
    (hadd : ∀ a b, π (a.append b) = π a ++ π b)
    (h0 : π WiringEffects.empty = [])
    {f : α → Except DiagramError WiringEffects} {l : List α}
    {eff : WiringEffects} (hrun : runAll f l = Except.ok eff) {x : α}
    (hx : x ∈ l) {e : WiringEffects} (hfe : f x = Except.ok e) {b : β}
    (hb : b ∈ π e) : b ∈ π eff := by
  rw [runAll_proj π hadd h0 hrun]
  refine List.mem_flatten.mpr ⟨okProj π (f x), List.mem_map_of_mem _ hx, ?_⟩
  rw [hfe]
  exact hb

theorem runAll_countP_single (π : WiringEffects → List β)
    (hadd : ∀ a b, π (a.append b) = π a ++ π b)
    (h0 : π WiringEffects.empty = []) (p : β → Bool)
    {f : Socket → Except DiagramError WiringEffects} {l : List Socket}
    {eff : WiringEffects} (hrun : runAll f l = Except.ok eff) {ps : Socket}
    (hps : ps ∈ l) (hnd : (l.map Socket.id).Nodup)
    (hother : ∀ y ∈ l, y.id ≠ ps.id →
      ∀ e, f y = Except.ok e → (π e).countP p = 0)
    {e : WiringEffects} (hfe : f ps = Except.ok e) :
    (π eff).countP p = (π e).countP p := by
  rw [runAll_proj π hadd h0 hrun, List.countP_flatten, List.map_map]
  have hsingle := sum_map_eq_single_of_nodup_key Socket.id
    (fun y => (okProj π (f y)).countP p) l ps hps hnd ?_
  · calc (List.map (List.countP p ∘ fun x => okProj π (f x)) l).sum
        = (List.map (fun y => (okProj π (f y)).countP p) l).sum := rfl
      _ = (okProj π (f ps)).countP p := hsingle
      _ = (π e).countP p := by rw [hfe]; rfl
  · intro y hy hne
    cases hfy : f y with
    | error err => simp [okProj, hfy]
    | ok ey =>
      have := hother y hy hne ey hfy
      simpa [okProj, hfy] using this

theorem runAll_countP_zero (π : WiringEffects → List β)
    (hadd : ∀ a b, π (a.append b) = π a ++ π b)
    (h0 : π WiringEffects.empty = []) (p : β → Bool)
    {f : α → Except DiagramError WiringEffects} {l : List α}
    {eff : WiringEffects} (hrun : runAll f l = Except.ok eff)
    (hall : ∀ y ∈ l, ∀ e, f y = Except.ok e → (π e).countP p = 0) :
    (π eff).countP p = 0 := by
  rw [runAll_proj π hadd h0 hrun, List.countP_flatten, List.map_map]
  apply sum_map_eq_zero
  intro y hy
  cases hfy : f y with
  | error err => simp [okProj, hfy]
  | ok ey =>
    have := hall y hy ey hfy
    simpa [okProj, hfy] using this

theorem runAll_all_empty {f : α → Except DiagramError WiringEffects}
    {l : List α} (h : ∀ x ∈ l, f x = Except.ok WiringEffects.empty) :
    runAll f l = Except.ok WiringEffects.empty := by
  induction l with
  | nil => rfl
  | cons x t ih =>
    unfold runAll
    rw [h x (List.mem_cons_self x t), ih (fun y hy => h y (List.mem_cons_of_mem x hy))]
    rfl

section FrameShapeLemmas

variable {env : DalEnv} {pn cn : NodeId} {pc cc : ComponentId}

theorem processChildSocketConfig_frame_skip {ps : Socket} {p : ExternalProvider}
    {cs : Socket} (h1 : cs.kind = SocketKind.Frame) :
    processChildSocketConfig env pn cn pc ps p cs = Except.ok WiringEffects.empty := by
  unfold processChildSocketConfig
  rw [if_pos h1]

theorem processChildSocketConfig_no_provider {ps : Socket} {p : ExternalProvider}
    {cs : Socket} (h1 : cs.kind ≠ SocketKind.Frame)
    (h2 : env.socket_internal_provider cs.id = none) :
    processChildSocketConfig env pn cn pc ps p cs = Except.ok WiringEffects.empty := by
  unfold processChildSocketConfig
  rw [if_neg h1, h2]

theorem processChildSocketConfig_name_mismatch {ps : Socket} {p : ExternalProvider}
    {cs : Socket} {q : InternalProvider} (h1 : cs.kind ≠ SocketKind.Frame)
    (h2 : env.socket_internal_provider cs.id = some q) (h3 : p.name ≠ q.name) :
    processChildSocketConfig env pn cn pc ps p cs = Except.ok WiringEffects.empty := by
  unfold processChildSocketConfig
  rw [if_neg h1, h2]
  simp [if_neg h3]

theorem processChildSocketConfig_matched {ps : Socket} {p : ExternalProvider}
    {cs : Socket} {q : InternalProvider} {av : AttributeValue}
    (h1 : cs.kind ≠ SocketKind.Frame)
    (h2 : env.socket_internal_provider cs.id = some q) (h3 : p.name = q.name)
    (h4 : env.attribute_value_for_context (configFrameReadContext pc p) = some av) :
    processChildSocketConfig env pn cn pc ps p cs =
      Except.ok
        ⟨[⟨pn, ps.id, cn, cs.id, EdgeKind.Configuration⟩], [], [], [],
          [[av.id]]⟩ := by
  unfold processChildSocketConfig
  rw [if_neg h1, h2]
  simp [if_pos h3, h4]

theorem processChildSocketConfig_missing_value {ps : Socket} {p : ExternalProvider}
    {cs : Socket} {q : InternalProvider} (h1 : cs.kind ≠ SocketKind.Frame)
    (h2 : env.socket_internal_provider cs.id = some q) (h3 : p.name = q.name)
    (h4 : env.attribute_value_for_context (configFrameReadContext pc p) = none) :
    processChildSocketConfig env pn cn pc ps p cs =
      Except.error
        (DiagramError.AttributeValueNotFoundForContext
          (configFrameReadContext pc p)) := by
  unfold processChildSocketConfig
  rw [if_neg h1, h2]
  simp [if_pos h3, h4]

theorem processChildSocketConfig_ok_shape {ps : Socket} {p : ExternalProvider}
    {cs : Socket} {e : WiringEffects}
    (h : processChildSocketConfig env pn cn pc ps p cs = Except.ok e) :
    (∀ c ∈ e.connections, c = ⟨pn, ps.id, cn, cs.id, EdgeKind.Configuration⟩)
      ∧ (∀ j ∈ e.enqueued_jobs, ∃ av : AttributeValue,
          env.attribute_value_for_context (configFrameReadContext pc p) = some av
            ∧ j = [av.id]) := by
  by_cases h1 : cs.kind = SocketKind.Frame
  · rw [processChildSocketConfig_frame_skip h1] at h
    cases h
    exact ⟨fun c hc => absurd hc (List.not_mem_nil c),
      fun j hj => absurd hj (List.not_mem_nil j)⟩
  · cases h2 : env.socket_internal_provider cs.id with
    | none =>
      rw [processChildSocketConfig_no_provider h1 h2] at h
      cases h
      exact ⟨fun c hc => absurd hc (List.not_mem_nil c),
        fun j hj => absurd hj (List.not_mem_nil j)⟩
    | some q =>
      by_cases h3 : p.name = q.name
      · cases h4 : env.attribute_value_for_context (configFrameReadContext pc p) with
        | none =>
          rw [processChildSocketConfig_missing_value h1 h2 h3 h4] at h
          cases h
        | some av =>
          rw [processChildSocketConfig_matched h1 h2 h3 h4] at h
          cases h
          constructor
          · intro c hc
            simpa using hc
          · intro j hj
            exact ⟨av, rfl, by simpa using hj⟩
      · rw [processChildSocketConfig_name_mismatch h1 h2 h3] at h
        cases h
        exact ⟨fun c hc => absurd hc (List.not_mem_nil c),
          fun j hj => absurd hj (List.not_mem_nil j)⟩

theorem processParentSocket_frame_skip {agg : Bool} {csl : List Socket}
    {ps : Socket} (h1 : ps.kind = SocketKind.Frame) :
    processParentSocket env pn cn pc cc agg csl ps =
      Except.ok WiringEffects.empty := by
  unfold processParentSocket
  rw [if_pos h1]

theorem processParentSocket_config_no_provider {csl : List Socket} {ps : Socket}
    (h1 : ps.kind ≠ SocketKind.Frame)
    (h2 : env.socket_external_provider ps.id = none) :
    processParentSocket env pn cn pc cc false csl ps =
      Except.ok WiringEffects.empty := by
  unfold processParentSocket
  rw [if_neg h1]
  simp [h2]

theorem processParentSocket_config_provider {csl : List Socket} {ps : Socket}
    {p : ExternalProvider} (h1 : ps.kind ≠ SocketKind.Frame)
    (h2 : env.socket_external_provider ps.id = some p) :
    processParentSocket env pn cn pc cc false csl ps =
      runAll (processChildSocketConfig env pn cn pc ps p) csl := by
  unfold processParentSocket
  rw [if_neg h1]
  simp [h2]

theorem processParentSocket_agg_input_ok {csl : List Socket} {ps : Socket}
    {prov : InternalProvider} {av : AttributeValue}
    (h1 : ps.kind ≠ SocketKind.Frame)
    (h2 : ps.edge_kind = SocketEdgeKind.ConfigurationInput)
    (h3 : env.internal_provider_explicit_for_socket ps.id = some prov)
    (h4 : env.attribute_value_for_context (aggregationInputReadContext pc prov) =
      some av) :
    processParentSocket env pn cn pc cc true csl ps =
      Except.ok
        ⟨[], [aggregationInputEdge pn cn pc cc ps],
          [⟨prov.id, cc, pc⟩], [], [[av.id]]⟩ := by
  unfold processParentSocket
  rw [if_neg h1]
  simp [h2, h3, h4]

theorem processParentSocket_agg_input_no_provider {csl : List Socket} {ps : Socket}
    (h1 : ps.kind ≠ SocketKind.Frame)
    (h2 : ps.edge_kind = SocketEdgeKind.ConfigurationInput)
    (h3 : env.internal_provider_explicit_for_socket ps.id = none) :
    processParentSocket env pn cn pc cc true csl ps =
      Except.error
        (DiagramError.Edge (EdgeError.InternalProviderNotFoundForSocket ps.id)) := by
  unfold processParentSocket
  rw [if_neg h1]
  simp [h2, h3]

theorem processParentSocket_agg_input_missing_value {csl : List Socket}
    {ps : Socket} {prov : InternalProvider}
    (h1 : ps.kind ≠ SocketKind.Frame)
    (h2 : ps.edge_kind = SocketEdgeKind.ConfigurationInput)
    (h3 : env.internal_provider_explicit_for_socket ps.id = some prov)
    (h4 : env.attribute_value_for_context (aggregationInputReadContext pc prov) =
      none) :
    processParentSocket env pn cn pc cc true csl ps =
      Except.error
        (DiagramError.AttributeValueNotFoundForContext
          (aggregationInputReadContext pc prov)) := by
  unfold processParentSocket
  rw [if_neg h1]
  simp [h2, h3, h4]

theorem processParentSocket_agg_output_ok {csl : List Socket} {ps : Socket}
    {prov : ExternalProvider} {av : AttributeValue}
    (h1 : ps.kind ≠ SocketKind.Frame)
    (h2 : ps.edge_kind = SocketEdgeKind.ConfigurationOutput)
    (h3 : env.external_provider_for_socket ps.id = some prov)
    (h4 : env.attribute_value_for_context (aggregationOutputReadContext cc prov) =
      some av) :
    processParentSocket env pn cn pc cc true csl ps =
      Except.ok
        ⟨[], [aggregationOutputEdge pn cn pc cc ps], [],
          [⟨prov.id, pc, cc⟩], [[av.id]]⟩ := by
  unfold processParentSocket
  rw [if_neg h1]
  simp [h2, h3, h4]

theorem processParentSocket_agg_output_no_provider {csl : List Socket} {ps : Socket}
    (h1 : ps.kind ≠ SocketKind.Frame)
    (h2 : ps.edge_kind = SocketEdgeKind.ConfigurationOutput)
    (h3 : env.external_provider_for_socket ps.id = none) :
    processParentSocket env pn cn pc cc true csl ps =
      Except.error
        (DiagramError.Edge (EdgeError.ExternalProviderNotFoundForSocket ps.id)) := by
  unfold processParentSocket
  rw [if_neg h1]
  simp [h2, h3]

theorem processParentSocket_agg_output_missing_value {csl : List Socket}
    {ps : Socket} {prov : ExternalProvider}
    (h1 : ps.kind ≠ SocketKind.Frame)
    (h2 : ps.edge_kind = SocketEdgeKind.ConfigurationOutput)
    (h3 : env.external_provider_for_socket ps.id = some prov)
    (h4 : env.attribute_value_for_context (aggregationOutputReadContext cc prov) =
      none) :
    processParentSocket env pn cn pc cc true csl ps =
      Except.error
        (DiagramError.AttributeValueNotFoundForContext
          (aggregationOutputReadContext cc prov)) := by
  unfold processParentSocket
  rw [if_neg h1]
  simp [h2, h3, h4]

theorem processParentSocket_agg_input_ok_inv {csl : List Socket} {ps : Socket}
    {e : WiringEffects} (h1 : ps.kind ≠ SocketKind.Frame)
    (h2 : ps.edge_kind = SocketEdgeKind.ConfigurationInput)
    (h : processParentSocket env pn cn pc cc true csl ps = Except.ok e) :
    ∃ (prov : InternalProvider) (av : AttributeValue),
      env.internal_provider_explicit_for_socket ps.id = some prov
        ∧ env.attribute_value_for_context (aggregationInputReadContext pc prov) =
            some av
        ∧ e = ⟨[], [aggregationInputEdge pn cn pc cc ps],
            [⟨prov.id, cc, pc⟩], [], [[av.id]]⟩ := by
  cases h3 : env.internal_provider_explicit_for_socket ps.id with
  | none =>
    rw [processParentSocket_agg_input_no_provider h1 h2 h3] at h
    cases h
  | some prov =>
    cases h4 : env.attribute_value_for_context (aggregationInputReadContext pc prov) with
    | none =>
      rw [processParentSocket_agg_input_missing_value h1 h2 h3 h4] at h
      cases h
    | some av =>
      rw [processParentSocket_agg_input_ok h1 h2 h3 h4] at h
      cases h
      exact ⟨prov, av, rfl, h4, rfl⟩

theorem processParentSocket_agg_output_ok_inv {csl : List Socket} {ps : Socket}
    {e : WiringEffects} (h1 : ps.kind ≠ SocketKind.Frame)
    (h2 : ps.edge_kind = SocketEdgeKind.ConfigurationOutput)
    (h : processParentSocket env pn cn pc cc true csl ps = Except.ok e) :
    ∃ (prov : ExternalProvider) (av : AttributeValue),
      env.external_provider_for_socket ps.id = some prov
        ∧ env.attribute_value_for_context (aggregationOutputReadContext cc prov) =
            some av
        ∧ e = ⟨[], [aggregationOutputEdge pn cn pc cc ps], [],
            [⟨prov.id, pc, cc⟩], [[av.id]]⟩ := by
  cases h3 : env.external_provider_for_socket ps.id with
  | none =>
    rw [processParentSocket_agg_output_no_provider h1 h2 h3] at h
    cases h
  | some prov =>
    cases h4 : env.attribute_value_for_context (aggregationOutputReadContext cc prov) with
    | none =>
      rw [processParentSocket_agg_output_missing_value h1 h2 h3 h4] at h
      cases h
    | some av =>
      rw [processParentSocket_agg_output_ok h1 h2 h3 h4] at h
      cases h
      exact ⟨prov, av, rfl, h4, rfl⟩

theorem processParentSocket_agg_jobs_length {csl : List Socket} {ps : Socket}
    {e : WiringEffects}
    (h : processParentSocket env pn cn pc cc true csl ps = Except.ok e) :
    e.enqueued_jobs.length = if ps.kind = SocketKind.Frame then 0 else 1 := by
  by_cases h1 : ps.kind = SocketKind.Frame
  · rw [processParentSocket_frame_skip h1] at h
    cases h
    simp [h1, WiringEffects.empty]
  · rw [if_neg h1]
    cases h2 : ps.edge_kind with
    | ConfigurationInput =>
      rcases processParentSocket_agg_input_ok_inv h1 h2 h with ⟨prov, av, _, _, he⟩
      subst he
      rfl
    | ConfigurationOutput =>
      rcases processParentSocket_agg_output_ok_inv h1 h2 h with ⟨prov, av, _, _, he⟩
      subst he
      rfl

theorem processParentSocket_agg_ipc_length {csl : List Socket} {ps : Socket}
    {e : WiringEffects}
    (h : processParentSocket env pn cn pc cc true csl ps = Except.ok e) :
    e.internal_provider_connections.length =
      if ps.kind ≠ SocketKind.Frame
          ∧ ps.edge_kind = SocketEdgeKind.ConfigurationInput then 1
      else 0 := by
  by_cases h1 : ps.kind = SocketKind.Frame
  · rw [processParentSocket_frame_skip h1] at h
    cases h
    simp [h1, WiringEffects.empty]
  · cases h2 : ps.edge_kind with
    | ConfigurationInput =>
      rcases processParentSocket_agg_input_ok_inv h1 h2 h with ⟨prov, av, _, _, he⟩
      subst he
      simp [h1]
    | ConfigurationOutput =>
      rcases processParentSocket_agg_output_ok_inv h1 h2 h with ⟨prov, av, _, _, he⟩
      subst he
      simp [h1]

theorem processParentSocket_agg_epc_length {csl : List Socket} {ps : Socket}
    {e : WiringEffects}
    (h : processParentSocket env pn cn pc cc true csl ps = Except.ok e) :
    e.external_provider_connections.length =
      if ps.kind ≠ SocketKind.Frame
          ∧ ps.edge_kind = SocketEdgeKind.ConfigurationOutput then 1
      else 0 := by
  by_cases h1 : ps.kind = SocketKind.Frame
  · rw [processParentSocket_frame_skip h1] at h
    cases h
    simp [h1, WiringEffects.empty]
  · cases h2 : ps.edge_kind with
    | ConfigurationInput =>
      rcases processParentSocket_agg_input_ok_inv h1 h2 h with ⟨prov, av, _, _, he⟩
      subst he
      simp [h1]
    | ConfigurationOutput =>
      rcases processParentSocket_agg_output_ok_inv h1 h2 h with ⟨prov, av, _, _, he⟩
      subst he
      simp [h1]

theorem processParentSocket_agg_edges_tail_socket {csl : List Socket} {ps : Socket}
    {e : WiringEffects}
    (h : processParentSocket env pn cn pc cc true csl ps = Except.ok e) :
    ∀ ed ∈ e.edges, ed.tail_socket_id = ps.id := by
  by_cases h1 : ps.kind = SocketKind.Frame
  · rw [processParentSocket_frame_skip h1] at h
    cases h
    intro ed hed
    cases hed
  · cases h2 : ps.edge_kind with
    | ConfigurationInput =>
      rcases processParentSocket_agg_input_ok_inv h1 h2 h with ⟨prov, av, _, _, he⟩
      subst he
      intro ed hed
      simp at hed
      subst hed
      rfl
    | ConfigurationOutput =>
      rcases processParentSocket_agg_output_ok_inv h1 h2 h with ⟨prov, av, _, _, he⟩
      subst he
      intro ed hed
      simp at hed
      subst hed
      rfl

theorem processParentSocket_config_connections_from_socket {csl : List Socket}
    {ps : Socket} {e : WiringEffects}
    (h : processParentSocket env pn cn pc cc false csl ps = Except.ok e) :
    ∀ c ∈ e.connections, c.from_socket = ps.id := by
  by_cases h1 : ps.kind = SocketKind.Frame
  · rw [processParentSocket_frame_skip h1] at h
    cases h
    intro c hc
    cases hc
  · cases h2 : env.socket_external_provider ps.id with
    | none =>
      rw [processParentSocket_config_no_provider h1 h2] at h
      cases h
      intro c hc
      cases hc
    | some p =>
      rw [processParentSocket_config_provider h1 h2] at h
      intro c hc
      have hconn := runAll_proj WiringEffects.connections (fun a b => rfl) rfl h
      rw [hconn] at hc
      rcases List.mem_flatten.mp hc with ⟨s, hs, hcs⟩
      rcases List.mem_map.mp hs with ⟨cs, _, hproj⟩
      rw [← hproj] at hcs
      cases hfx : processChildSocketConfig env pn cn pc ps p cs with
      | error err => rw [hfx] at hcs; cases hcs
      | ok ec =>
        rw [hfx] at hcs
        have := (processChildSocketConfig_ok_shape hfx).1 c hcs
        rw [this]

end FrameShapeLemmas

/-! ### Claim theorems -/

/-- C1.  Proxy semantics of `update_proxies`: for a value `v` whose
`proxy_for_attribute_value_id` names a less specific value `u`, while
`sealed_proxy` is false a proxy refresh makes `v` carry exactly the current
`func_binding_return_value_id` of `u`; once `v` is sealed the refresh leaves
`v` untouched for every state of the store, so no subsequent change to `u`
can change the result of `v`. -/
theorem update_proxies_read_through_and_seal
    (store : AttributeValueId → Option AttributeValue)
    (v u : AttributeValue) (uid : AttributeValueId) :
    (v.proxy_for_attribute_value_id = some uid → v.sealed_proxy = false →
      store uid = some u →
      v.update_proxies store =
        Except.ok
          { v with func_binding_return_value_id := u.func_binding_return_value_id })
    ∧ (v.sealed_proxy = true → v.update_proxies store = Except.ok v)
    ∧ (v.sealed_proxy = true →
        ∀ store2 : AttributeValueId → Option AttributeValue,
          v.update_proxies store2 = v.update_proxies store) := by
  refine ⟨?_, ?_, ?_⟩
  · intro h1 h2 h3
    simp [AttributeValue.update_proxies, h1, h2, h3]
  · intro h
    cases hv : v.proxy_for_attribute_value_id with
    | none => simp [AttributeValue.update_proxies, hv]
    | some pid => simp [AttributeValue.update_proxies, hv, h]
  · intro h store2
    cases hv : v.proxy_for_attribute_value_id with
    | none => simp [AttributeValue.update_proxies, hv]
    | some pid => simp [AttributeValue.update_proxies, hv, h]

/-- Witness for C1: on the concrete store, the unsealed proxy picks up the
proxied value's result `some 42`, and the sealed proxy is left unchanged. -/
theorem update_proxies_read_through_and_seal_witness :
    (AttributeValue.update_proxies storeW proxyValueW =
      Except.ok
        { proxyValueW with func_binding_return_value_id := some 42 })
    ∧ AttributeValue.update_proxies storeW sealedValueW = Except.ok sealedValueW :=
  ⟨(update_proxies_read_through_and_seal storeW proxyValueW proxiedValueW 1).1
      rfl rfl rfl,
    (update_proxies_read_through_and_seal storeW sealedValueW proxiedValueW 1).2.1 rfl⟩

/-- C5.  A parent whose component type is neither `ConfigurationFrame` nor
`AggregationFrame` (which leaves only plain `Component`) makes frame wiring
fail with `InvalidComponentTypeForFrame`, and no effects are committed: the
call never returns a committed `WiringEffects` record. -/
theorem invalid_component_type_for_frame_aborts (env : DalEnv)
    (parent_node_id child_node_id : NodeId)
    (parent_component_id child_component_id : ComponentId)
    (hp : env.component_for_node parent_node_id = some parent_component_id)
    (hc : env.component_for_node child_node_id = some child_component_id)
    (ht1 : env.component_type parent_component_id ≠ ComponentType.ConfigurationFrame)
    (ht2 : env.component_type parent_component_id ≠ ComponentType.AggregationFrame) :
    connect_component_sockets_to_frame env parent_node_id child_node_id =
      Except.error
        (DiagramError.InvalidComponentTypeForFrame ComponentType.Component)
    ∧ ∀ eff : WiringEffects,
        connect_component_sockets_to_frame env parent_node_id child_node_id ≠
          Except.ok eff := by
  have ht : env.component_type parent_component_id = ComponentType.Component := by
    cases h : env.component_type parent_component_id with
    | Component => rfl
    | ConfigurationFrame => exact absurd h ht1
    | AggregationFrame => exact absurd h ht2
  have herr : connect_component_sockets_to_frame env parent_node_id child_node_id =
      Except.error
        (DiagramError.InvalidComponentTypeForFrame ComponentType.Component) := by
    simp [connect_component_sockets_to_frame, hp, hc, ht]
  exact ⟨herr, fun eff hcontra => by rw [herr] at hcontra; cases hcontra⟩

/-- Witness for C5: on the concrete plain-`Component` environment, wiring
node 2 into node 1 fails with `InvalidComponentTypeForFrame`. -/
theorem invalid_component_type_for_frame_aborts_witness :
    connect_component_sockets_to_frame envComponentW 1 2 =
      Except.error
        (DiagramError.InvalidComponentTypeForFrame ComponentType.Component) :=
  (invalid_component_type_for_frame_aborts envComponentW 1 2 10 20 rfl rfl
      (by decide) (by decide)).1

/-- C6.  Context construction: `to_context` (the spec's `build`) succeeds
exactly when at most one of the three discriminator fields (prop, internal
provider, external provider) is concrete, and with two or more concrete
discriminators it fails with the validation error. -/
theorem attribute_context_build_ok_iff (b : AttributeContextBuilder) :
    ((∃ c : AttributeContext, b.to_context = Except.ok c) ↔
      [b.prop_id, b.internal_provider_id, b.external_provider_id].countP
          (fun id => decide (id ≠ UNSET_ID)) ≤ 1)
    ∧ (2 ≤ [b.prop_id, b.internal_provider_id, b.external_provider_id].countP
          (fun id => decide (id ≠ UNSET_ID)) →
        b.to_context = Except.error
          (AttributeContextBuilderError.MultipleDiscriminatorsSet b.prop_id
            b.internal_provider_id b.external_provider_id)) := by
  have hcount : [b.prop_id, b.internal_provider_id, b.external_provider_id].countP
      (fun id => decide (id ≠ UNSET_ID)) = b.setDiscriminatorCount := by
    by_cases h1 : b.prop_id = UNSET_ID <;>
      by_cases h2 : b.internal_provider_id = UNSET_ID <;>
        by_cases h3 : b.external_provider_id = UNSET_ID <;>
          simp [AttributeContextBuilder.setDiscriminatorCount, List.countP_cons,
            List.countP_nil, h1, h2, h3]
  rw [hcount]
  unfold AttributeContextBuilder.to_context
  by_cases h : 2 ≤ b.setDiscriminatorCount
  · simp [h]
    omega
  · simp [h]
    omega

/-- Witness for C6: the builder with prop and internal provider both set
fails with the validation error, and the prop-only builder succeeds. -/
theorem attribute_context_build_ok_iff_witness :
    (AttributeContextBuilder.to_context ⟨1, 2, 0, 0, 0, 0⟩ =
      Except.error
        (AttributeContextBuilderError.MultipleDiscriminatorsSet 1 2 0))
    ∧ ∃ c : AttributeContext,
        AttributeContextBuilder.to_context ⟨1, 0, 0, 0, 0, 0⟩ = Except.ok c :=
  ⟨(attribute_context_build_ok_iff ⟨1, 2, 0, 0, 0, 0⟩).2 (by decide),
    (attribute_context_build_ok_iff ⟨1, 0, 0, 0, 0, 0⟩).1.mpr (by decide)⟩

/-- C10.  `AttributeValue::new` only inserts a fresh row: every row already
present keeps its stored record, and in particular a parent value's
`index_map` field is unchanged by value creation. -/
theorem attribute_value_new_preserves_existing_rows (s : ValueStore)
    (tenancy : Tenancy) (visibility : Visibility)
    (fbrv : Option FuncBindingReturnValueId) (context : AttributeContext)
    (key : Option String) (pid : AttributeValueId)
    (h : pid ∈ s.rows.map AttributeValue.id) :
    ((AttributeValue.new s tenancy visibility fbrv context key).2.get_by_id pid =
      s.get_by_id pid)
    ∧ (Option.map AttributeValue.index_map
        ((AttributeValue.new s tenancy visibility fbrv context key).2.get_by_id pid) =
      Option.map AttributeValue.index_map (s.get_by_id pid)) := by
  have hlt : pid < s.freshId := by
    rcases List.mem_map.mp h with ⟨w, hw, hwid⟩
    rw [← hwid]
    exact mem_rows_id_lt_freshId hw
  have hmain : (AttributeValue.new s tenancy visibility fbrv context key).2.get_by_id pid =
      s.get_by_id pid := by
    have hne : (s.freshId == pid) = false := by
      rw [beq_eq_false_iff_ne]
      exact Nat.ne_of_gt hlt
    simp [AttributeValue.new, ValueStore.get_by_id, List.find?, hne]
  exact ⟨hmain, by rw [hmain]⟩

/-- Witness for C10: creating a value on the concrete one-row store leaves
the stored row (id 7) and its `index_map` untouched. -/
theorem attribute_value_new_preserves_existing_rows_witness :
    ((AttributeValue.new valueStoreW 0 0 (some 3) ⟨5, 0, 0, 77, 1, 2⟩ none).2.get_by_id 7 =
      valueStoreW.get_by_id 7)
    ∧ (Option.map AttributeValue.index_map
        ((AttributeValue.new valueStoreW 0 0 (some 3) ⟨5, 0, 0, 77, 1, 2⟩
          none).2.get_by_id 7) =
      Option.map AttributeValue.index_map (valueStoreW.get_by_id 7)) :=
  attribute_value_new_preserves_existing_rows valueStoreW 0 0 (some 3)
    ⟨5, 0, 0, 77, 1, 2⟩ none 7 (by decide)

/-- C7.  Round trip and specificity: creating a value at a context built
with a concrete component and prop and then querying that exact context
returns the created value's identifier; and when every stored value is
component-level, a query at a strictly less specific (component-unset)
context finds nothing — specificity does not leak upward. -/
theorem find_for_context_round_trip_no_upward_leak :
    (∀ (s : ValueStore) (tenancy : Tenancy) (visibility : Visibility)
        (fbrv : Option FuncBindingReturnValueId) (key : Option String)
        (b : AttributeContextBuilder) (c : AttributeContext),
      b.internal_provider_id = UNSET_ID → b.external_provider_id = UNSET_ID →
      b.prop_id ≠ UNSET_ID → b.component_id ≠ UNSET_ID →
      b.to_context = Except.ok c →
      Option.map AttributeValue.id
          ((AttributeValue.new s tenancy visibility fbrv c key).2.find_for_context c) =
        some (AttributeValue.new s tenancy visibility fbrv c key).1.id)
    ∧ (∀ (s : ValueStore) (q : AttributeContext),
        (∀ w ∈ s.rows, w.context.component_id ≠ UNSET_ID) →
        q.component_id = UNSET_ID → s.find_for_context q = none) := by
  constructor
  · intro s tenancy visibility fbrv key b c _ _ _ _ _
    unfold AttributeValue.new ValueStore.find_for_context
    rw [List.foldl_cons]
    have hfirst : findStep c none
        { pk := s.freshId, id := s.freshId, func_binding_return_value_id := fbrv,
          proxy_for_attribute_value_id := none, sealed_proxy := false,
          index_map := none, key := key, context := c, tenancy := tenancy,
          visibility := visibility, timestamp := 0 } =
        some
          { pk := s.freshId, id := s.freshId, func_binding_return_value_id := fbrv,
            proxy_for_attribute_value_id := none, sealed_proxy := false,
            index_map := none, key := key, context := c, tenancy := tenancy,
            visibility := visibility, timestamp := 0 } := by
      unfold findStep
      simp [contextMatchesAtOrBelow_self]
    rw [hfirst]
    rw [foldl_findStep_keeps_best c _ s.rows
      (fun v _ hm => specificityLevel_le_of_matches hm)]
    rfl
  · intro s q hrows hq
    unfold ValueStore.find_for_context
    apply foldl_findStep_none
    intro v hv
    have hvcomp := hrows v hv
    unfold contextMatchesAtOrBelow
    have h1 : (v.context.component_id == q.component_id) = false := by
      rw [beq_eq_false_iff_ne, hq]
      exact hvcomp
    have h2 : (v.context.component_id == UNSET_ID) = false := by
      rw [beq_eq_false_iff_ne]
      exact hvcomp
    simp [h1, h2]

/-- Witness for C7: on the empty store, creating at the component-and-prop
context built from the builder and querying it back returns the new id; and
the one-row component-level store yields nothing for a component-unset
query. -/
theorem find_for_context_round_trip_no_upward_leak_witness :
    (Option.map AttributeValue.id
        ((AttributeValue.new ⟨[]⟩ 0 0 (some 3) ⟨5, 0, 0, 77, 1, 2⟩ none).2.find_for_context
          ⟨5, 0, 0, 77, 1, 2⟩) =
      some (AttributeValue.new ⟨[]⟩ 0 0 (some 3) ⟨5, 0, 0, 77, 1, 2⟩ none).1.id)
    ∧ valueStoreW.find_for_context ⟨5, 0, 0, 0, 1, 2⟩ = none :=
  ⟨find_for_context_round_trip_no_upward_leak.1 ⟨[]⟩ 0 0 (some 3) none
      ⟨5, 0, 0, 77, 1, 2⟩ ⟨5, 0, 0, 77, 1, 2⟩ rfl rfl (by decide) (by decide) rfl,
    find_for_context_round_trip_no_upward_leak.2 valueStoreW ⟨5, 0, 0, 0, 1, 2⟩
      (by decide) rfl⟩

/-- C3.  Aggregation-frame input wiring: on a successful wiring call, every
non-frame `ConfigurationInput` parent socket has resolved its explicit
internal provider and the parent-side attribute value at the read context
(component = parent, internal provider = provider); the provider is hooked
up from the child component to the parent component; exactly one
`Configuration` edge directed from the child node to the parent node exists
for this socket; and the value's id is enqueued as a propagation root.  The
number of enqueued propagation jobs equals the number of non-frame parent
sockets (one per parent aggregation value touched per wiring call,
independent of the child's socket list), and the number of provider hookups
equals the number of non-frame input sockets.  A missing explicit internal
provider fails the socket's processing with
`InternalProviderNotFoundForSocket`. -/
theorem aggregation_frame_input_wiring (env : DalEnv) (pn cn : NodeId)
    (pc cc : ComponentId) (eff : WiringEffects)
    (hp : env.component_for_node pn = some pc)
    (hc : env.component_for_node cn = some cc)
    (ht : env.component_type pc = ComponentType.AggregationFrame)
    (hok : connect_component_sockets_to_frame env pn cn = Except.ok eff)
    (hndp : ((env.sockets_for_component pc).map Socket.id).Nodup) :
    (∀ ps ∈ env.sockets_for_component pc, ps.kind ≠ SocketKind.Frame →
      ps.edge_kind = SocketEdgeKind.ConfigurationInput →
      ∃ (prov : InternalProvider) (av : AttributeValue),
        env.internal_provider_explicit_for_socket ps.id = some prov
          ∧ env.attribute_value_for_context (aggregationInputReadContext pc prov) =
              some av
          ∧ (⟨prov.id, cc, pc⟩ : InternalProviderConnection) ∈
              eff.internal_provider_connections
          ∧ aggregationInputEdge pn cn pc cc ps ∈ eff.edges
          ∧ eff.edges.countP (fun ed => ed.tail_socket_id == ps.id) = 1
          ∧ [av.id] ∈ eff.enqueued_jobs)
    ∧ eff.enqueued_jobs.length =
        (env.sockets_for_component pc).countP
          (fun s => !(s.kind == SocketKind.Frame))
    ∧ eff.internal_provider_connections.length =
        (env.sockets_for_component pc).countP
          (fun s => !(s.kind == SocketKind.Frame)
            && s.edge_kind == SocketEdgeKind.ConfigurationInput)
    ∧ (∀ ps : Socket, ps.kind ≠ SocketKind.Frame →
        ps.edge_kind = SocketEdgeKind.ConfigurationInput →
        env.internal_provider_explicit_for_socket ps.id = none →
        processParentSocket env pn cn pc cc true
            (env.sockets_for_component cc) ps =
          Except.error
            (DiagramError.Edge
              (EdgeError.InternalProviderNotFoundForSocket ps.id))) := by
  have hrun : runAll
      (processParentSocket env pn cn pc cc true (env.sockets_for_component cc))
      (env.sockets_for_component pc) = Except.ok eff := by
    simp only [connect_component_sockets_to_frame, hp, hc, ht] at hok
    exact hok
  refine ⟨?_, ?_, ?_, ?_⟩
  · intro ps hps h1 h2
    obtain ⟨e, hfe⟩ := runAll_ok_of_mem hrun hps
    obtain ⟨prov, av, h3, h4, he⟩ := processParentSocket_agg_input_ok_inv h1 h2 hfe
    subst he
    refine ⟨prov, av, h3, h4, ?_, ?_, ?_, ?_⟩
    · exact runAll_mem_proj WiringEffects.internal_provider_connections
        (fun a b => rfl) rfl hrun hps hfe (by simp)
    · exact runAll_mem_proj WiringEffects.edges (fun a b => rfl) rfl hrun hps hfe
        (by simp)
    · rw [runAll_countP_single WiringEffects.edges (fun a b => rfl) rfl
        (fun ed => ed.tail_socket_id == ps.id) hrun hps hndp ?_ hfe]
      · simp [aggregationInputEdge, List.countP_cons]
      · intro y hy hne ey hfy
        rw [List.countP_eq_zero]
        intro ed hed
        rw [processParentSocket_agg_edges_tail_socket hfy ed hed]
        simp [hne]
    · exact runAll_mem_proj WiringEffects.enqueued_jobs (fun a b => rfl) rfl hrun
        hps hfe (by simp)
  · have hjobs := runAll_proj WiringEffects.enqueued_jobs (fun a b => rfl) rfl hrun
    rw [hjobs, List.length_flatten, List.map_map]
    have hpt : ∀ y ∈ env.sockets_for_component pc,
        (List.length ∘ fun x => okProj WiringEffects.enqueued_jobs
          (processParentSocket env pn cn pc cc true
            (env.sockets_for_component cc) x)) y =
        (fun s : Socket => if !(s.kind == SocketKind.Frame) then 1 else 0) y := by
      intro y hy
      obtain ⟨e, hfe⟩ := runAll_ok_of_mem hrun hy
      have hlen := processParentSocket_agg_jobs_length hfe
      show (okProj WiringEffects.enqueued_jobs _).length = _
      rw [hfe]
      show e.enqueued_jobs.length = _
      rw [hlen]
      cases hk : y.kind <;> simp [hk]
    rw [List.map_congr_left hpt]
    exact sum_map_indicator_eq_countP _ _
  · have hipc := runAll_proj WiringEffects.internal_provider_connections
      (fun a b => rfl) rfl hrun
    rw [hipc, List.length_flatten, List.map_map]
    have hpt : ∀ y ∈ env.sockets_for_component pc,
        (List.length ∘ fun x => okProj WiringEffects.internal_provider_connections
          (processParentSocket env pn cn pc cc true
            (env.sockets_for_component cc) x)) y =
        (fun s : Socket => if !(s.kind == SocketKind.Frame)
            && s.edge_kind == SocketEdgeKind.ConfigurationInput then 1 else 0) y := by
      intro y hy
      obtain ⟨e, hfe⟩ := runAll_ok_of_mem hrun hy
      have hlen := processParentSocket_agg_ipc_length hfe
      show (okProj WiringEffects.internal_provider_connections _).length = _
      rw [hfe]
      show e.internal_provider_connections.length = _
      rw [hlen]
      cases hk : y.kind <;> cases hek : y.edge_kind <;> simp [hk, hek]
    rw [List.map_congr_left hpt]
    exact sum_map_indicator_eq_countP _ _
  · intro ps h1 h2 h3
    exact processParentSocket_agg_input_no_provider h1 h2 h3

/-- C4.  Aggregation-frame output wiring: on a successful wiring call, every
non-frame `ConfigurationOutput` parent socket has resolved its external
provider and the child-side attribute value at the read context
(component = child, external provider = provider); the provider is hooked up
from the parent component to the child component; exactly one
`Configuration` edge directed from the parent node to the child node exists
for this socket; and the value's id is enqueued as a propagation root.  The
number of provider hookups equals the number of non-frame output sockets.
A missing external provider fails the socket's processing with
`ExternalProviderNotFoundForSocket`. -/
theorem aggregation_frame_output_wiring (env : DalEnv) (pn cn : NodeId)
    (pc cc : ComponentId) (eff : WiringEffects)
    (hp : env.component_for_node pn = some pc)
    (hc : env.component_for_node cn = some cc)
    (ht : env.component_type pc = ComponentType.AggregationFrame)
    (hok : connect_component_sockets_to_frame env pn cn = Except.ok eff)
    (hndp : ((env.sockets_for_component pc).map Socket.id).Nodup) :
    (∀ ps ∈ env.sockets_for_component pc, ps.kind ≠ SocketKind.Frame →
      ps.edge_kind = SocketEdgeKind.ConfigurationOutput →
      ∃ (prov : ExternalProvider) (av : AttributeValue),
        env.external_provider_for_socket ps.id = some prov
          ∧ env.attribute_value_for_context (aggregationOutputReadContext cc prov) =
              some av
          ∧ (⟨prov.id, pc, cc⟩ : ExternalProviderConnection) ∈
              eff.external_provider_connections
          ∧ aggregationOutputEdge pn cn pc cc ps ∈ eff.edges
          ∧ eff.edges.countP (fun ed => ed.tail_socket_id == ps.id) = 1
          ∧ [av.id] ∈ eff.enqueued_jobs)
    ∧ eff.external_provider_connections.length =
        (env.sockets_for_component pc).countP
          (fun s => !(s.kind == SocketKind.Frame)
            && s.edge_kind == SocketEdgeKind.ConfigurationOutput)
    ∧ (∀ ps : Socket, ps.kind ≠ SocketKind.Frame →
        ps.edge_kind = SocketEdgeKind.ConfigurationOutput →
        env.external_provider_for_socket ps.id = none →
        processParentSocket env pn cn pc cc true
            (env.sockets_for_component cc) ps =
          Except.error
            (DiagramError.Edge
              (EdgeError.ExternalProviderNotFoundForSocket ps.id))) := by
  have hrun : runAll
      (processParentSocket env pn cn pc cc true (env.sockets_for_component cc))
      (env.sockets_for_component pc) = Except.ok eff := by
    simp only [connect_component_sockets_to_frame, hp, hc, ht] at hok
    exact hok
  refine ⟨?_, ?_, ?_⟩
  · intro ps hps h1 h2
    obtain ⟨e, hfe⟩ := runAll_ok_of_mem hrun hps
    obtain ⟨prov, av, h3, h4, he⟩ := processParentSocket_agg_output_ok_inv h1 h2 hfe
    subst he
    refine ⟨prov, av, h3, h4, ?_, ?_, ?_, ?_⟩
    · exact runAll_mem_proj WiringEffects.external_provider_connections
        (fun a b => rfl) rfl hrun hps hfe (by simp)
    · exact runAll_mem_proj WiringEffects.edges (fun a b => rfl) rfl hrun hps hfe
        (by simp)
    · rw [runAll_countP_single WiringEffects.edges (fun a b => rfl) rfl
        (fun ed => ed.tail_socket_id == ps.id) hrun hps hndp ?_ hfe]
      · simp [aggregationOutputEdge, List.countP_cons]
      · intro y hy hne ey hfy
        rw [List.countP_eq_zero]
        intro ed hed
        rw [processParentSocket_agg_edges_tail_socket hfy ed hed]
        simp [hne]
    · exact runAll_mem_proj WiringEffects.enqueued_jobs (fun a b => rfl) rfl hrun
        hps hfe (by simp)
  · have hepc := runAll_proj WiringEffects.external_provider_connections
      (fun a b => rfl) rfl hrun
    rw [hepc, List.length_flatten, List.map_map]
    have hpt : ∀ y ∈ env.sockets_for_component pc,
        (List.length ∘ fun x => okProj WiringEffects.external_provider_connections
          (processParentSocket env pn cn pc cc true
            (env.sockets_for_component cc) x)) y =
        (fun s : Socket => if !(s.kind == SocketKind.Frame)
            && s.edge_kind == SocketEdgeKind.ConfigurationOutput then 1 else 0) y := by
      intro y hy
      obtain ⟨e, hfe⟩ := runAll_ok_of_mem hrun hy
      have hlen := processParentSocket_agg_epc_length hfe
      show (okProj WiringEffects.external_provider_connections _).length = _
      rw [hfe]
      show e.external_provider_connections.length = _
      rw [hlen]
      cases hk : y.kind <;> cases hek : y.edge_kind <;> simp [hk, hek]
    rw [List.map_congr_left hpt]
    exact sum_map_indicator_eq_countP _ _
  · intro ps h1 h2 h3
    exact processParentSocket_agg_output_no_provider h1 h2 h3

/-- C2.  Configuration-frame wiring: on a successful wiring call, every pair
of a non-frame parent socket with an external provider and a non-frame child
socket with an internal provider of exactly the same name gets exactly one
`Configuration` connection from the parent socket to the child socket, and
the parent-side attribute value found at the read context (prop = NONE,
internal provider = NONE, external provider = parent provider,
component = parent) is enqueued as a propagation root.  A parent socket
whose external provider matches no child input provider contributes zero
connections and its processing succeeds with no effects and no error. -/
theorem configuration_frame_wiring (env : DalEnv) (pn cn : NodeId)
    (pc cc : ComponentId) (eff : WiringEffects)
    (hp : env.component_for_node pn = some pc)
    (hc : env.component_for_node cn = some cc)
    (ht : env.component_type pc = ComponentType.ConfigurationFrame)
    (hok : connect_component_sockets_to_frame env pn cn = Except.ok eff)
    (hndp : ((env.sockets_for_component pc).map Socket.id).Nodup)
    (hndc : ((env.sockets_for_component cc).map Socket.id).Nodup) :
    (∀ ps ∈ env.sockets_for_component pc, ∀ cs ∈ env.sockets_for_component cc,
      ∀ (p : ExternalProvider) (q : InternalProvider),
        ps.kind ≠ SocketKind.Frame → cs.kind ≠ SocketKind.Frame →
        env.socket_external_provider ps.id = some p →
        env.socket_internal_provider cs.id = some q →
        p.name = q.name →
        eff.connections.countP
            (fun c => c.from_socket == ps.id && c.to_socket == cs.id) = 1
          ∧ (⟨pn, ps.id, cn, cs.id, EdgeKind.Configuration⟩ : Connection) ∈
              eff.connections
          ∧ ∃ av : AttributeValue,
              env.attribute_value_for_context (configFrameReadContext pc p) =
                  some av
                ∧ [av.id] ∈ eff.enqueued_jobs)
    ∧ (∀ ps ∈ env.sockets_for_component pc, ∀ p : ExternalProvider,
        ps.kind ≠ SocketKind.Frame →
        env.socket_external_provider ps.id = some p →
        (∀ cs ∈ env.sockets_for_component cc, cs.kind = SocketKind.Frame ∨
          ∀ q : InternalProvider,
            env.socket_internal_provider cs.id = some q → q.name ≠ p.name) →
        eff.connections.countP (fun c => c.from_socket == ps.id) = 0
          ∧ processParentSocket env pn cn pc cc false
              (env.sockets_for_component cc) ps = Except.ok WiringEffects.empty) := by
  have hrun : runAll
      (processParentSocket env pn cn pc cc false (env.sockets_for_component cc))
      (env.sockets_for_component pc) = Except.ok eff := by
    simp only [connect_component_sockets_to_frame, hp, hc, ht] at hok
    exact hok
  constructor
  · intro ps hps cs hcs p q h1 h2 hep hip hname
    obtain ⟨e, hfe0⟩ := runAll_ok_of_mem hrun hps
    have hfeq := @processParentSocket_config_provider env pn cn pc cc
      (env.sockets_for_component cc) ps p h1 hep
    have hfe : runAll (processChildSocketConfig env pn cn pc ps p)
        (env.sockets_for_component cc) = Except.ok e := by
      rw [← hfeq]
      exact hfe0
    obtain ⟨ec, hfc⟩ := runAll_ok_of_mem hfe hcs
    cases h4 : env.attribute_value_for_context (configFrameReadContext pc p) with
    | none =>
      rw [processChildSocketConfig_missing_value h2 hip hname h4] at hfc
      cases hfc
    | some av =>
      have hmatched := @processChildSocketConfig_matched env pn cn pc ps p cs q
        av h2 hip hname h4
      have hcount1 : e.connections.countP
          (fun c => c.from_socket == ps.id && c.to_socket == cs.id) = 1 := by
        rw [runAll_countP_single WiringEffects.connections (fun a b => rfl) rfl
          (fun c => c.from_socket == ps.id && c.to_socket == cs.id) hfe hcs hndc
          ?_ hmatched]
        · simp [List.countP_cons]
        · intro y hy hne ey hfy
          rw [List.countP_eq_zero]
          intro c hcmem
          rw [(processChildSocketConfig_ok_shape hfy).1 c hcmem]
          simp [hne]
      refine ⟨?_, ?_, av, rfl, ?_⟩
      · rw [runAll_countP_single WiringEffects.connections (fun a b => rfl) rfl
          (fun c => c.from_socket == ps.id && c.to_socket == cs.id) hrun hps hndp
          ?_ hfe0]
        · exact hcount1
        · intro y hy hne ey hfy
          rw [List.countP_eq_zero]
          intro c hcmem
          have hfrom := processParentSocket_config_connections_from_socket hfy c hcmem
          simp [hfrom, hne]
      · refine runAll_mem_proj WiringEffects.connections (fun a b => rfl) rfl hrun
          hps hfe0 ?_
        exact runAll_mem_proj WiringEffects.connections (fun a b => rfl) rfl hfe
          hcs hmatched (by simp)
      · refine runAll_mem_proj WiringEffects.enqueued_jobs (fun a b => rfl) rfl hrun
          hps hfe0 ?_
        exact runAll_mem_proj WiringEffects.enqueued_jobs (fun a b => rfl) rfl hfe
          hcs hmatched (by simp)
  · intro ps hps p h1 hep hnomatch
    have hempty : ∀ cs ∈ env.sockets_for_component cc,
        processChildSocketConfig env pn cn pc ps p cs =
          Except.ok WiringEffects.empty := by
      intro cs hcs
      by_cases hkind : cs.kind = SocketKind.Frame
      · exact processChildSocketConfig_frame_skip hkind
      · rcases hnomatch cs hcs with hk | hq
        · exact absurd hk hkind
        · cases hip : env.socket_internal_provider cs.id with
          | none => exact processChildSocketConfig_no_provider hkind hip
          | some w =>
            exact processChildSocketConfig_name_mismatch hkind hip
              (Ne.symm (hq w hip))
    have hfps : processParentSocket env pn cn pc cc false
        (env.sockets_for_component cc) ps = Except.ok WiringEffects.empty := by
      rw [@processParentSocket_config_provider env pn cn pc cc
        (env.sockets_for_component cc) ps p h1 hep]
      exact runAll_all_empty hempty
    refine ⟨?_, hfps⟩
    apply runAll_countP_zero WiringEffects.connections (fun a b => rfl) rfl
      (fun c => c.from_socket == ps.id) hrun
    intro y hy ey hfy
    by_cases hyid : y.id = ps.id
    · have hyps : y = ps :=
        List.inj_on_of_nodup_map hndp hy hps hyid
      subst hyps
      rw [hfps] at hfy
      cases hfy
      rfl
    · rw [List.countP_eq_zero]
      intro c hcmem
      have hfrom := processParentSocket_config_connections_from_socket hfy c hcmem
      simp [hfrom, hyid]

/-- C8.  Skipping: a frame-kind parent socket is skipped in both frame
modes with no effects and no error; in configuration-frame mode a
frame-kind child socket and a name-mismatched provider pair are skipped the
same way; and a whole wiring call over only frame-kind parent sockets
succeeds with no effects at all. -/
theorem frame_kind_sockets_skipped (env : DalEnv) (pn cn : NodeId)
    (pc cc : ComponentId) :
    (∀ (agg : Bool) (csl : List Socket) (ps : Socket),
      ps.kind = SocketKind.Frame →
      processParentSocket env pn cn pc cc agg csl ps =
        Except.ok WiringEffects.empty)
    ∧ (∀ (ps : Socket) (p : ExternalProvider) (cs : Socket),
        cs.kind = SocketKind.Frame →
        processChildSocketConfig env pn cn pc ps p cs =
          Except.ok WiringEffects.empty)
    ∧ (∀ (ps : Socket) (p : ExternalProvider) (cs : Socket)
        (q : InternalProvider),
        env.socket_internal_provider cs.id = some q → p.name ≠ q.name →
        processChildSocketConfig env pn cn pc ps p cs =
          Except.ok WiringEffects.empty)
    ∧ (env.component_for_node pn = some pc →
        env.component_for_node cn = some cc →
        (env.component_type pc = ComponentType.ConfigurationFrame ∨
          env.component_type pc = ComponentType.AggregationFrame) →
        (∀ ps ∈ env.sockets_for_component pc, ps.kind = SocketKind.Frame) →
        connect_component_sockets_to_frame env pn cn =
          Except.ok WiringEffects.empty) := by
  refine ⟨?_, ?_, ?_, ?_⟩
  · intro agg csl ps h1
    exact processParentSocket_frame_skip h1
  · intro ps p cs h1
    exact processChildSocketConfig_frame_skip h1
  · intro ps p cs q hip hname
    by_cases hkind : cs.kind = SocketKind.Frame
    · exact processChildSocketConfig_frame_skip hkind
    · exact processChildSocketConfig_name_mismatch hkind hip hname
  · intro hp hc ht hallframe
    have hempty : ∀ agg : Bool,
        runAll (processParentSocket env pn cn pc cc agg
          (env.sockets_for_component cc)) (env.sockets_for_component pc) =
        Except.ok WiringEffects.empty := by
      intro agg
      exact runAll_all_empty
        (fun ps hps => processParentSocket_frame_skip (hallframe ps hps))
    rcases ht with ht | ht <;>
      simp only [connect_component_sockets_to_frame, hp, hc, ht] <;>
        exact hempty _

/-- C9.  Lookups fail closed in the frame algorithm: at each of the three
`find_for_context` sites (configuration-frame matched pair, aggregation
input socket, aggregation output socket) a missing attribute value turns
into `AttributeValueNotFoundForContext` carrying the offending read context,
and the error surfaces from the whole wiring call. -/
theorem attribute_value_lookups_fail_closed (env : DalEnv) (pn cn : NodeId)
    (pc cc : ComponentId) :
    (∀ (ps : Socket) (p : ExternalProvider) (cs : Socket) (q : InternalProvider),
      cs.kind ≠ SocketKind.Frame →
      env.socket_internal_provider cs.id = some q → p.name = q.name →
      env.attribute_value_for_context (configFrameReadContext pc p) = none →
      processChildSocketConfig env pn cn pc ps p cs =
        Except.error
          (DiagramError.AttributeValueNotFoundForContext
            (configFrameReadContext pc p)))
    ∧ (∀ (csl : List Socket) (ps : Socket) (prov : InternalProvider),
        ps.kind ≠ SocketKind.Frame →
        ps.edge_kind = SocketEdgeKind.ConfigurationInput →
        env.internal_provider_explicit_for_socket ps.id = some prov →
        env.attribute_value_for_context (aggregationInputReadContext pc prov) =
          none →
        processParentSocket env pn cn pc cc true csl ps =
          Except.error
            (DiagramError.AttributeValueNotFoundForContext
              (aggregationInputReadContext pc prov)))
    ∧ (∀ (csl : List Socket) (ps : Socket) (prov : ExternalProvider),
        ps.kind ≠ SocketKind.Frame →
        ps.edge_kind = SocketEdgeKind.ConfigurationOutput →
        env.external_provider_for_socket ps.id = some prov →
        env.attribute_value_for_context (aggregationOutputReadContext cc prov) =
          none →
        processParentSocket env pn cn pc cc true csl ps =
          Except.error
            (DiagramError.AttributeValueNotFoundForContext
              (aggregationOutputReadContext cc prov)))
    ∧ (∀ (ps : Socket) (prov : InternalProvider),
        env.component_for_node pn = some pc →
        env.component_for_node cn = some cc →
        env.component_type pc = ComponentType.AggregationFrame →
        env.sockets_for_component pc = [ps] →
        ps.kind ≠ SocketKind.Frame →
        ps.edge_kind = SocketEdgeKind.ConfigurationInput →
        env.internal_provider_explicit_for_socket ps.id = some prov →
        env.attribute_value_for_context (aggregationInputReadContext pc prov) =
          none →
        connect_component_sockets_to_frame env pn cn =
          Except.error
            (DiagramError.AttributeValueNotFoundForContext
              (aggregationInputReadContext pc prov))) := by
  refine ⟨?_, ?_, ?_, ?_⟩
  · intro ps p cs q h1 h2 h3 h4
    exact processChildSocketConfig_missing_value h1 h2 h3 h4
  · intro csl ps prov h1 h2 h3 h4
    exact processParentSocket_agg_input_missing_value h1 h2 h3 h4
  · intro csl ps prov h1 h2 h3 h4
    exact processParentSocket_agg_output_missing_value h1 h2 h3 h4
  · intro ps prov hp hc ht hsl h1 h2 h3 h4
    simp only [connect_component_sockets_to_frame, hp, hc, ht, hsl]
    unfold runAll
    rw [processParentSocket_agg_input_missing_value h1 h2 h3 h4]

/-- Witness for C2: in the concrete configuration-frame environment the
`Region` pair yields exactly one connection and enqueues the parent-side
value, while the unmatched `Foo` socket yields zero connections and no
error. -/
theorem configuration_frame_wiring_witness :
    (effConfigW.connections.countP
        (fun c => c.from_socket == regionOutSocketW.id
          && c.to_socket == regionInSocketW.id) = 1
      ∧ (⟨1, regionOutSocketW.id, 2, regionInSocketW.id, EdgeKind.Configuration⟩ :
          Connection) ∈ effConfigW.connections
      ∧ ∃ av : AttributeValue,
          envConfigW.attribute_value_for_context
              (configFrameReadContext 10 regionExtProvW) = some av
            ∧ [av.id] ∈ effConfigW.enqueued_jobs)
    ∧ (effConfigW.connections.countP
        (fun c => c.from_socket == fooOutSocketW.id) = 0
      ∧ processParentSocket envConfigW 1 2 10 20 false
          (envConfigW.sockets_for_component 20) fooOutSocketW =
        Except.ok WiringEffects.empty) := by
  have h := configuration_frame_wiring envConfigW 1 2 10 20 effConfigW rfl rfl rfl
    rfl (by decide) (by decide)
  refine ⟨h.1 regionOutSocketW (by decide) regionInSocketW (by decide)
      regionExtProvW regionIntProvW (by decide) (by decide) rfl rfl rfl,
    h.2 fooOutSocketW (by decide) fooExtProvW (by decide) rfl ?_⟩
  intro cs hcs
  fin_cases hcs
  · right
    intro q hq
    simp [envConfigW, regionInSocketW] at hq
    subst hq
    decide
  · left
    rfl

/-- Witness for C3: in the concrete aggregation-frame environment the input
socket resolves its provider and value, hooks the provider up child-to-
parent, creates exactly one child-to-parent edge, and enqueues the value;
exactly two jobs are enqueued (one per non-frame parent socket). -/
theorem aggregation_frame_input_wiring_witness :
    (∃ (prov : InternalProvider) (av : AttributeValue),
      envAggW.internal_provider_explicit_for_socket sInW.id = some prov
        ∧ envAggW.attribute_value_for_context
            (aggregationInputReadContext 10 prov) = some av
        ∧ (⟨prov.id, 20, 10⟩ : InternalProviderConnection) ∈
            effAggW.internal_provider_connections
        ∧ aggregationInputEdge 1 2 10 20 sInW ∈ effAggW.edges
        ∧ effAggW.edges.countP (fun ed => ed.tail_socket_id == sInW.id) = 1
        ∧ [av.id] ∈ effAggW.enqueued_jobs)
    ∧ effAggW.enqueued_jobs.length =
        (envAggW.sockets_for_component 10).countP
          (fun s => !(s.kind == SocketKind.Frame)) := by
  have h := aggregation_frame_input_wiring envAggW 1 2 10 20 effAggW rfl rfl rfl
    rfl (by decide)
  exact ⟨h.1 sInW (by decide) (by decide) rfl, h.2.1⟩

/-- Witness for C4: in the concrete aggregation-frame environment the output
socket resolves its provider and the child-side value, hooks the provider up
parent-to-child, creates exactly one parent-to-child edge, and enqueues the
value; exactly one provider hookup exists (one per non-frame output
socket). -/
theorem aggregation_frame_output_wiring_witness :
    (∃ (prov : ExternalProvider) (av : AttributeValue),
      envAggW.external_provider_for_socket sOutW.id = some prov
        ∧ envAggW.attribute_value_for_context
            (aggregationOutputReadContext 20 prov) = some av
        ∧ (⟨prov.id, 10, 20⟩ : ExternalProviderConnection) ∈
            effAggW.external_provider_connections
        ∧ aggregationOutputEdge 1 2 10 20 sOutW ∈ effAggW.edges
        ∧ effAggW.edges.countP (fun ed => ed.tail_socket_id == sOutW.id) = 1
        ∧ [av.id] ∈ effAggW.enqueued_jobs)
    ∧ effAggW.external_provider_connections.length =
        (envAggW.sockets_for_component 10).countP
          (fun s => !(s.kind == SocketKind.Frame)
            && s.edge_kind == SocketEdgeKind.ConfigurationOutput) := by
  have h := aggregation_frame_output_wiring envAggW 1 2 10 20 effAggW rfl rfl rfl
    rfl (by decide)
  exact ⟨h.1 sOutW (by decide) (by decide) rfl, h.2.1⟩

/-- Witness for C8: the frame-kind parent socket, the frame-kind child
socket and the `Foo`/`Region` name mismatch are each skipped with no effects
and no error, and a wiring call over an all-frame parent socket list
succeeds with no effects. -/
theorem frame_kind_sockets_skipped_witness :
    (processParentSocket envConfigW 1 2 10 20 false
        (envConfigW.sockets_for_component 20) parentFrameSocketW =
      Except.ok WiringEffects.empty)
    ∧ (processChildSocketConfig envConfigW 1 2 10 regionOutSocketW
        regionExtProvW childFrameSocketW = Except.ok WiringEffects.empty)
    ∧ (processChildSocketConfig envConfigW 1 2 10 fooOutSocketW fooExtProvW
        regionInSocketW = Except.ok WiringEffects.empty)
    ∧ connect_component_sockets_to_frame envAllFramesW 1 2 =
        Except.ok WiringEffects.empty := by
  have h := frame_kind_sockets_skipped envConfigW 1 2 10 20
  have h2 := frame_kind_sockets_skipped envAllFramesW 1 2 10 20
  exact ⟨h.1 false (envConfigW.sockets_for_component 20) parentFrameSocketW rfl,
    h.2.1 regionOutSocketW regionExtProvW childFrameSocketW rfl,
    h.2.2.1 fooOutSocketW fooExtProvW regionInSocketW regionIntProvW rfl
      (by decide),
    h2.2.2.2 rfl rfl (Or.inl rfl) (by decide)⟩

/-- Witness for C9: in the all-misses environment each lookup site fails
with `AttributeValueNotFoundForContext` carrying its read context, and the
whole wiring call surfaces the error. -/
theorem attribute_value_lookups_fail_closed_witness :
    (processChildSocketConfig envMissingW 1 2 10 sOutW xExtProvW xChildSocketW =
      Except.error
        (DiagramError.AttributeValueNotFoundForContext
          (configFrameReadContext 10 xExtProvW)))
    ∧ (processParentSocket envMissingW 1 2 10 20 true [] sInW =
        Except.error
          (DiagramError.AttributeValueNotFoundForContext
            (aggregationInputReadContext 10 internalProvW)))
    ∧ (processParentSocket envMissingW 1 2 10 20 true [] sOutW =
        Except.error
          (DiagramError.AttributeValueNotFoundForContext
            (aggregationOutputReadContext 20 externalProvW)))
    ∧ connect_component_sockets_to_frame envMissingW 1 2 =
        Except.error
          (DiagramError.AttributeValueNotFoundForContext
            (aggregationInputReadContext 10 internalProvW)) := by
  have h := attribute_value_lookups_fail_closed envMissingW 1 2 10 20
  exact ⟨h.1 sOutW xExtProvW xChildSocketW childXIntProvW (by decide) rfl rfl rfl,
    h.2.1 [] sInW internalProvW (by decide) rfl rfl rfl,
    h.2.2.1 [] sOutW externalProvW (by decide) rfl rfl rfl,
    h.2.2.2 sInW internalProvW rfl rfl rfl rfl (by decide) rfl rfl rfl⟩

end Si
